import Mathlib

/-!
Verification of the SEO-audit report-synthesis pipeline
(`api/deep_audit_slides.py` and `api/dataforseo_client.py`).

The Python code is shallowly embedded: JSON values are an inductive type,
Python exceptions are an explicit `Except` effect, machine floats are
modelled by exact rationals (the spots where binary64 rounding could
diverge from exact arithmetic are noted at the definitions concerned).
-/

namespace SeoAudit

/-- A Python/JSON value.  Numbers are modelled as exact rationals
(Python ints and the floats appearing in provider payloads). -/
inductive Json where
  | null : Json
  | bool : Bool → Json
  | num  : ℚ → Json
  | str  : String → Json
  | arr  : List Json → Json
  | obj  : List (String × Json) → Json
  deriving Repr

/-- A Python exception, as far as the embedded code can observe it:
the handlers in `dataforseo_client.py` distinguish only
`requests.exceptions.RequestException` from everything else. -/
inductive PyExc where
  | valueError (msg : String) : PyExc
  | typeError : PyExc
  | attributeError : PyExc
  | keyError : PyExc
  | indexError : PyExc
  | requestExc (msg : String) : PyExc
  deriving Repr, DecidableEq

/-- The message `str(e)` of an exception (content only matters for the
`error` field of failure dictionaries; kept schematic). -/
def PyExc.msg : PyExc → String
  | .valueError m => m
  | .typeError => "TypeError"
  | .attributeError => "AttributeError"
  | .keyError => "KeyError"
  | .indexError => "IndexError"
  | .requestExc m => m

/-- Python truthiness: `None`, `False`, `0`, `""`, `[]`, `{}` are falsy. -/
def truthy : Json → Bool
  | .null => false
  | .bool b => b
  | .num q => q ≠ 0
  | .str s => s ≠ ""
  | .arr xs => !xs.isEmpty
  | .obj kvs => !kvs.isEmpty

/-- Python `a or b` (on already-evaluated operands): the first truthy value. -/
def pyOr (a b : Json) : Json := if truthy a then a else b

/-- Python `d.get(k, default)`.  Only dictionaries have `.get`; on any
other value (in particular `None`) the attribute lookup raises. -/
def pyGet (d : Json) (k : String) (dflt : Json) : Except PyExc Json :=
  match d with
  | .obj kvs => .ok ((kvs.lookup k).getD dflt)
  | _ => .error .attributeError

/-- Python `len(x)`: defined for strings, lists and dicts. -/
def pyLen : Json → Except PyExc ℕ
  | .str s => .ok s.length
  | .arr xs => .ok xs.length
  | .obj kvs => .ok kvs.length
  | _ => .error .typeError

/-- Python subscription `x[i]` with a non-negative integer index. -/
def pyIndex (x : Json) (i : ℕ) : Except PyExc Json :=
  match x with
  | .arr xs => match xs.get? i with
      | some v => .ok v
      | none => .error .indexError
  | .str s => match s.data.get? i with
      | some c => .ok (.str (String.mk [c]))
      | none => .error .indexError
  | .obj _ => .error .keyError
  | _ => .error .typeError

/-- Python iteration `for x in v`: lists yield their elements, strings
their characters, dicts their keys; other values are not iterable. -/
def pyIter : Json → Except PyExc (List Json)
  | .arr xs => .ok xs
  | .str s => .ok (s.data.map fun c => .str (String.mk [c]))
  | .obj kvs => .ok (kvs.map fun kv => .str kv.1)
  | _ => .error .typeError

/-- Python slicing `x[:n]` (lists and strings). -/
def pySlice (x : Json) (n : ℕ) : Except PyExc Json :=
  match x with
  | .arr xs => .ok (.arr (xs.take n))
  | .str s => .ok (.str (String.mk (s.data.take n)))
  | _ => .error .typeError

/-- The numeric view Python comparisons use: numbers are themselves,
booleans are 0/1, everything else is not a number. -/
def asNum : Json → Option ℚ
  | .num q => some q
  | .bool b => some (if b then 1 else 0)
  | _ => none

/-- Python `x < c` against a numeric constant (raises `TypeError` when
`x` is not comparable to a number). -/
def pyLtC (x : Json) (c : ℚ) : Except PyExc Bool :=
  match asNum x with
  | some q => .ok (decide (q < c))
  | none => .error .typeError

/-- Python `x > c` against a numeric constant. -/
def pyGtC (x : Json) (c : ℚ) : Except PyExc Bool :=
  match asNum x with
  | some q => .ok (decide (c < q))
  | none => .error .typeError

/-- Python `x <= c` against a numeric constant. -/
def pyLeC (x : Json) (c : ℚ) : Except PyExc Bool :=
  match asNum x with
  | some q => .ok (decide (q ≤ c))
  | none => .error .typeError

/-- Python scalar equality `x == y` for the shapes the embedded code
compares (numbers and booleans compare by value, strings by content,
`None` only to itself; mismatched scalar types compare unequal — this
is total, Python `==` never raises).  Container equality is structural
and is never exercised by the code under study. -/
def pyEq (a b : Json) : Bool :=
  match asNum a, asNum b with
  | some x, some y => decide (x = y)
  | _, _ =>
    match a, b with
    | .null, .null => true
    | .str s, .str t => s == t
    | _, _ => false

/-- Python numeric addition (with bool-as-int coercion); string and list
concatenation; anything else raises `TypeError`. -/
def pyAdd (a b : Json) : Except PyExc Json :=
  match asNum a, asNum b with
  | some x, some y => .ok (.num (x + y))
  | _, _ =>
    match a, b with
    | .str s, .str t => .ok (.str (s ++ t))
    | .arr xs, .arr ys => .ok (.arr (xs ++ ys))
    | _, _ => .error .typeError

/-- Python numeric multiplication (bool-as-int); sequence repetition is
not modelled (no embedded code path multiplies a string or list). -/
def pyMul (a b : Json) : Except PyExc ℚ :=
  match asNum a, asNum b with
  | some x, some y => .ok (x * y)
  | _, _ => .error .typeError

/-- Python `float(x)` for numbers and booleans; conversion of numeric
strings is not modelled (no claim exercises it), other types raise. -/
def pyFloat : Json → Except PyExc ℚ
  | .num q => .ok q
  | .bool b => .ok (if b then 1 else 0)
  | _ => .error .typeError

/-- Python `int(x)` on a rational: truncation toward zero (the
numerator and denominator of a `Rat` are already reduced, so this is
integer T-division). -/
def pyTrunc (q : ℚ) : ℤ := q.num.tdiv (q.den : ℤ)

/-- Python `str(x)` for the scalar shapes that reach it in the embedded
code (headings and table cells); container `repr` is schematic. -/
def pyStr : Json → String
  | .str s => s
  | .null => "None"
  | .bool b => if b then "True" else "False"
  | .num q => if q.den = 1 then toString q.num else toString q
  | .arr _ => "[...]"
  | .obj _ => "\x7b...\x7d"

end SeoAudit

namespace SeoAudit

/-! ## Annotation Selector (`deep_audit_slides.py`, lines 88–145)

The helpers receive whatever Python value the caller extracted from the
payload, so they are embedded over `Json` with the `x or 0` coercion of
the source.  The returned strings are the exact source literals,
including their emoji prefixes. -/

/-- `get_traffic_annotation_with_needs_work(traffic, needs_work_count)`. -/
def get_traffic_annotation_with_needs_work (traffic needs_work_count : Json) :
    Except PyExc String := do
  let traffic := pyOr traffic (.num 0)
  let needs_work_count := pyOr needs_work_count (.num 0)
  if ← pyLtC traffic 20000 then pure "🔴 Low Organic Traffic"
  else if ← pyGtC needs_work_count 20 then pure "📈 Many keywords need work"
  else pure "✅ Strong Organic Traffic"

/-- Python `x >= c` against a numeric constant. -/
def pyGeC (x : Json) (c : ℚ) : Except PyExc Bool :=
  match asNum x with
  | some q => .ok (decide (c ≤ q))
  | none => .error .typeError

/-- `get_keywords_annotation(count, needs_work_count)`. -/
def get_keywords_annotation (count needs_work_count : Json) :
    Except PyExc String := do
  let count := pyOr count (.num 0)
  let needs_work_count := pyOr needs_work_count (.num 0)
  let hi ← pyGtC needs_work_count 50
  if hi then pure "📈 Has potential for more visitors"
  else if ← pyGeC count 100 then pure "📈 Has potential for more visitors"
  else pure "⚠️ Limited Keywords"

/-- `get_backlinks_annotation(referring_domains, high_spam_count)`.
The second parameter is bound but never read by the source function. -/
def get_backlinks_annotation (referring_domains high_spam_count : Json) :
    Except PyExc String := do
  let referring_domains := pyOr referring_domains (.num 0)
  if ← pyLtC referring_domains 100 then pure "⚠️ Needs Link Building"
  else pure "🔴 Many High Spam Backlinks"

/-- `get_speed_annotation(score)`. -/
def get_speed_annotation (score : Json) : Except PyExc String := do
  let score := pyOr score (.num 0)
  if ← pyGeC score 90 then pure "✅ Excellent Speed"
  else if ← pyGeC score 50 then pure "⚠️ Needs Optimization"
  else pure "🔴 Poor Performance"

/-- `get_readability_annotation(grade)`. -/
def get_readability_annotation (grade : Json) : Except PyExc String := do
  let grade := pyOr grade (.num 0)
  if ← pyGtC grade 9 then pure "🔴 Poor Page Readability"
  else pure "✅ Content Readability is Apt"

/-! ## Formatting helpers (`deep_audit_slides.py`, lines 157–172)

Python renders `f"{x:.df}"` by rounding the binary64 value of `x`
half-to-even at `d` decimals.  Here the exact rational is rounded
half-to-even; the two agree whenever the value is exactly representable
in binary64 or not at a representation-shifted rounding boundary, which
holds for every input appearing in the theorems below (18.5, 1.25 and
0.2199999·10² all round identically). -/

/-- Round `q * s` to the nearest integer, ties to even, computed on the
numerator and denominator (`f` is the floor of `q·s` and `r2` compares
the fractional remainder against one half by cross-multiplication). -/
def roundHalfEvenScaled (q : ℚ) (s : ℕ) : ℤ :=
  let n := q.num * (s : ℤ)
  let d := (q.den : ℤ)
  let f := n.fdiv d
  let r2 := 2 * (n - f * d)
  if r2 < d then f
  else if d < r2 then f + 1
  else if f % 2 = 0 then f else f + 1

/-- `f"{q:.df}"` for a non-negative rational. -/
def fmtFixedNN (d : ℕ) (q : ℚ) : String :=
  let n := roundHalfEvenScaled q (10 ^ d)
  let ip := n.tdiv ((10 : ℤ) ^ d)
  let fp := (n.tmod ((10 : ℤ) ^ d)).toNat
  let s := toString fp
  toString ip ++ "." ++ String.mk (List.replicate (d - s.length) '0') ++ s

/-- `f"{q:.df}"` (sign handled by magnitude, as CPython does). -/
def fmtFixed (d : ℕ) (q : ℚ) : String :=
  if q < 0 then "-" ++ fmtFixedNN d (-q) else fmtFixedNN d q

/-- Exact division of a rational by a positive natural number
(`mkRat` re-normalises, so no reduced-form invariant is needed). -/
def divNatQ (q : ℚ) (m : ℕ) : ℚ := mkRat q.num (q.den * m)

/-- `format_number(n)`: large-number formatting, `18500 -> "18.5K"`. -/
def format_number (n : Json) : Except PyExc String :=
  match n with
  | .null => .ok "0"
  | _ => do
    let q ← pyFloat n
    if 1000000 ≤ q then pure (fmtFixed 1 (divNatQ q 1000000) ++ "M")
    else if 1000 ≤ q then pure (fmtFixed 1 (divNatQ q 1000) ++ "K")
    else pure (toString (pyTrunc q))

/-- `format_currency(n)`: `0.2199999 -> "$0.22"`. -/
def format_currency (n : Json) : Except PyExc String :=
  match n with
  | .null => .ok "$0.00"
  | _ => do
    let q ← pyFloat n
    pure ("$" ++ fmtFixed 2 q)

/-! ## Needs-work keyword count (`deep_audit_slides.py`, lines 257–265) -/

/-- The resolution of a keyword record to its `pos` value:
`pos = kw.get('position', 100)`, falling back to
`ranked_serp_element.serp_item.rank_absolute` (default 100) when falsy. -/
def resolvedPos (kw : Json) : Except PyExc Json := do
  let pos ← pyGet kw "position" (.num 100)
  if truthy pos then pure pos
  else do
    let rse ← pyGet kw "ranked_serp_element" (.obj [])
    let serp_item ← pyGet rse "serp_item" (.obj [])
    pyGet serp_item "rank_absolute" (.num 100)

/-- One iteration of the needs-work loop:
`if pos and pos > 20 and pos <= 100` (short-circuit left to right). -/
def kwNeedsWork (kw : Json) : Except PyExc Bool := do
  let pos ← resolvedPos kw
  if truthy pos then do
    if ← pyGtC pos 20 then pyLeC pos 100 else pure false
  else pure false

/-- `needs_work_count`: the number of keywords the loop counts. -/
def needsWorkCount (keywords : Json) : Except PyExc ℕ := do
  let ks ← pyIter keywords
  ks.foldlM (fun acc kw => do
    let b ← kwNeedsWork kw
    pure (if b then acc + 1 else acc)) 0

end SeoAudit

namespace SeoAudit

/-! ## Duplicate-heading fallback (`deep_audit_slides.py`, lines 374–403)

This is the recomputation path taken when no caller-supplied
`issue_counts` map is present. -/

/-- Python `str.lower().strip()`: per-character lower-casing followed
by trimming leading and trailing whitespace (the ASCII range, which
covers the heading texts considered here). -/
def pyLowerStrip (s : String) : String :=
  String.mk ((((s.data.map Char.toLower).dropWhile
    Char.isWhitespace).reverse.dropWhile Char.isWhitespace).reverse)

/-- The per-heading normalisation and noise filter of the fallback:
`key = str(val).lower().strip()`, kept only when `len(key) > 3`.
Applied to a heading container only when it `isinstance(..., list)`. -/
def headKeys : Json → List String
  | .arr xs => (xs.map fun v => pyLowerStrip (pyStr v)).filter fun k => 3 < k.length
  | _ => []

/-- What one pass of the page loop records for a single page. -/
structure PageHeadings where
  no_h1 : Bool
  multi_h1 : Bool
  no_h2 : Bool
  many_h2 : Bool
  no_h3 : Bool
  many_h3 : Bool
  h1_keys : List String
  h2_keys : List String
  h3_keys : List String
  deriving Repr

/-- One iteration of the fallback loop over `pages` (lines 376–399). -/
def pageHeadings (p : Json) : Except PyExc PageHeadings := do
  let m0 ← pyGet p "meta" .null
  let meta := match m0 with | .obj _ => m0 | _ => Json.obj []
  let h1a ← pyGet meta "h1" .null
  let h1_list ← if truthy h1a then pure h1a else do
    let b ← pyGet p "h1" .null
    pure (pyOr b (.arr []))
  let h2a ← pyGet meta "h2" .null
  let h2_list ← if truthy h2a then pure h2a else do
    let b ← pyGet p "h2" .null
    pure (pyOr b (.arr []))
  let h3a ← pyGet meta "h3" .null
  let h3_list ← if truthy h3a then pure h3a else do
    let b ← pyGet p "h3" .null
    pure (pyOr b (.arr []))
  let h1_cnt : ℕ := match h1_list with
    | .arr xs => xs.length
    | _ => if truthy h1_list then 1 else 0
  let h2c ← pyGet meta "h2_count" .null
  let h2_cnt ← if truthy h2c then pure h2c else do
    let b ← pyGet p "h2_count" .null
    if truthy b then pure b else
      pure (Json.num (match h2_list with | .arr xs => (xs.length : ℚ) | _ => 0))
  let h3c ← pyGet meta "h3_count" .null
  let h3_cnt ← if truthy h3c then pure h3c else do
    let b ← pyGet p "h3_count" .null
    if truthy b then pure b else
      pure (Json.num (match h3_list with | .arr xs => (xs.length : ℚ) | _ => 0))
  let many_h2 ← pyGtC h2_cnt 10
  let many_h3 ← pyGtC h3_cnt 15
  pure ⟨decide (h1_cnt = 0), decide (1 < h1_cnt),
        pyEq h2_cnt (.num 0), many_h2, pyEq h3_cnt (.num 0), many_h3,
        headKeys h1_list, headKeys h2_list, headKeys h3_list⟩

/-- `tag_map[key] = tag_map.get(key, 0) + 1`, preserving dict insertion
order. -/
def bumpKey : List (String × ℕ) → String → List (String × ℕ)
  | [], k => [(k, 1)]
  | (k', v) :: rest, k =>
      if k' = k then (k', v + 1) :: rest else (k', v) :: bumpKey rest k

/-- The occurrence-count map accumulated over a stream of keys. -/
def buildCounts (ks : List String) : List (String × ℕ) := ks.foldl bumpKey []

/-- `len([k for k, v in tag_map.items() if v > 1])`. -/
def dupCount (ks : List String) : ℕ :=
  (buildCounts ks).countP fun kv => decide (1 < kv.2)

/-- The nine counters the fallback produces. -/
structure HeadingCounts where
  no_h1_count : ℕ
  multi_h1_count : ℕ
  no_h2_count : ℕ
  many_h2_count : ℕ
  no_h3_count : ℕ
  many_h3_count : ℕ
  dup_h1_count : ℕ
  dup_h2_count : ℕ
  dup_h3_count : ℕ
  deriving Repr

/-- The whole fallback computation (lines 364–403): iterate the page
list, then count the duplicated normalized heading values.  The three
`tag_map`s grow page by page; folding them over the concatenation of
all pages' keys yields the same maps. -/
def headingFallbackCounts (pages : Json) : Except PyExc HeadingCounts := do
  let ps ← pyIter pages
  let phs ← ps.mapM pageHeadings
  pure ⟨phs.countP (·.no_h1), phs.countP (·.multi_h1),
        phs.countP (·.no_h2), phs.countP (·.many_h2),
        phs.countP (·.no_h3), phs.countP (·.many_h3),
        dupCount (phs.flatMap (·.h1_keys)),
        dupCount (phs.flatMap (·.h2_keys)),
        dupCount (phs.flatMap (·.h3_keys))⟩

end SeoAudit

namespace SeoAudit

/-! ## Metric Extractor: `get_page_issues` page records
(`dataforseo_client.py`, lines 264–472) -/

/-- The `issues` map of one formatted page (source lines 434–471).
The pure boolean defaults (`not title`, `len(title) > 60`, …) are
passed in already evaluated; the two comparison defaults that can raise
(`load_time_ms > 3000`, `word_count < 300`) are evaluated here, at
their position in the dict literal.  Note that a provider flag present
in `checks` is returned as-is by `.get`, whatever its value. -/
def computeIssues (page checks : Json)
    (no_title_d no_desc_d no_h1_d mult_h1 too_long_d too_short_d
     desc_long no_canon : Bool)
    (load_time_ms word_count : Json) : Except PyExc Json := do
  let no_title ← pyGet checks "no_title" (.bool no_title_d)
  let no_description ← pyGet checks "no_description" (.bool no_desc_d)
  let no_h1 ← pyGet checks "no_h1_tag" (.bool no_h1_d)
  let title_too_long ← pyGet checks "title_too_long" (.bool too_long_d)
  let title_too_short ← pyGet checks "title_too_short" (.bool too_short_d)
  let is_broken ← pyGet checks "is_broken" (.bool false)
  let is_redirect ← pyGet checks "is_redirect" (.bool false)
  let is_4xx ← pyGet checks "is_4xx_code" (.bool false)
  let is_5xx ← pyGet checks "is_5xx_code" (.bool false)
  let slow_d ← pyGtC load_time_ms 3000
  let slow_load ← pyGet checks "high_loading_time" (.bool slow_d)
  let high_waiting_time ← pyGet checks "high_waiting_time" (.bool false)
  let low_d ← pyLtC word_count 300
  let low_content ← pyGet checks "low_content_rate" (.bool low_d)
  let no_image_alt ← pyGet checks "no_image_alt" (.bool false)
  let no_image_title ← pyGet checks "no_image_title" (.bool false)
  let no_favicon ← pyGet checks "no_favicon" (.bool false)
  let duplicate_title ← pyGet checks "duplicate_title_tag" (.bool false)
  let duplicate_description ← pyGet page "duplicate_description" (.bool false)
  let duplicate_content ← pyGet page "duplicate_content" (.bool false)
  let has_render_blocking ← pyGet checks "has_render_blocking_resources" (.bool false)
  let deprecated_html_tags ← pyGet checks "deprecated_html_tags" (.bool false)
  let duplicate_meta_tags ← pyGet checks "duplicate_meta_tags" (.bool false)
  let no_doctype ← pyGet checks "no_doctype" (.bool false)
  let no_encoding ← pyGet checks "no_encoding_meta_tag" (.bool false)
  let https_to_http_links ← pyGet checks "https_to_http_links" (.bool false)
  let is_orphan_page ← pyGet checks "is_orphan_page" (.bool false)
  let redirect_chain ← pyGet checks "redirect_chain" (.bool false)
  let canonical_chain ← pyGet checks "canonical_chain" (.bool false)
  let has_links_to_redirects ← pyGet checks "has_links_to_redirects" (.bool false)
  let large_page_size ← pyGet checks "large_page_size" (.bool false)
  let low_readability ← pyGet checks "low_readability_rate" (.bool false)
  let has_misspelling ← pyGet checks "has_misspelling" (.bool false)
  let lorem_ipsum ← pyGet checks "lorem_ipsum" (.bool false)
  let seo_friendly_url ← pyGet checks "seo_friendly_url" (.bool true)
  pure (Json.obj
    [("no_title", no_title), ("no_description", no_description),
     ("no_h1", no_h1), ("multiple_h1", .bool mult_h1),
     ("title_too_long", title_too_long),
     ("title_too_short", title_too_short),
     ("description_too_long", .bool desc_long),
     ("no_canonical", .bool no_canon), ("is_broken", is_broken),
     ("is_redirect", is_redirect), ("is_4xx", is_4xx),
     ("is_5xx", is_5xx), ("slow_load", slow_load),
     ("high_waiting_time", high_waiting_time),
     ("low_content", low_content), ("no_image_alt", no_image_alt),
     ("no_image_title", no_image_title), ("no_favicon", no_favicon),
     ("duplicate_title", duplicate_title),
     ("duplicate_description", duplicate_description),
     ("duplicate_content", duplicate_content),
     ("has_render_blocking", has_render_blocking),
     ("deprecated_html_tags", deprecated_html_tags),
     ("duplicate_meta_tags", duplicate_meta_tags),
     ("no_doctype", no_doctype), ("no_encoding", no_encoding),
     ("https_to_http_links", https_to_http_links),
     ("is_orphan_page", is_orphan_page),
     ("redirect_chain", redirect_chain),
     ("canonical_chain", canonical_chain),
     ("has_links_to_redirects", has_links_to_redirects),
     ("large_page_size", large_page_size),
     ("low_readability", low_readability),
     ("has_misspelling", has_misspelling),
     ("lorem_ipsum", lorem_ipsum),
     ("seo_friendly_url", seo_friendly_url)])

/-- One iteration of the page loop of `get_page_issues`: the defensive
extraction of every field and the appended page dict, in source order
(debug prints elided). -/
def formatPage (page : Json) : Except PyExc Json := do
  let meta := pyOr (← pyGet page "meta" .null) (.obj [])
  let htags := pyOr (← pyGet meta "htags" .null) (.obj [])
  let h1_list := pyOr (← pyGet htags "h1" .null) (.arr [])
  let h2_list := pyOr (← pyGet htags "h2" .null) (.arr [])
  let h3_list := pyOr (← pyGet htags "h3" .null) (.arr [])
  let title := pyOr (← pyGet meta "title" .null) (.str "")
  let description := pyOr (← pyGet meta "description" .null) (.str "")
  let page_timing := pyOr (← pyGet page "page_timing" .null) (.obj [])
  let content_info := pyOr (← pyGet meta "content" .null) (.obj [])
  let checks := pyOr (← pyGet page "checks" .null) (.obj [])
  let cache_control := pyOr (← pyGet page "cache_control" .null) (.obj [])
  let time_to_interactive := pyOr (← pyGet page_timing "time_to_interactive" .null) (.num 0)
  let dom_complete := pyOr (← pyGet page_timing "dom_complete" .null) (.num 0)
  let lcp := pyOr (← pyGet page_timing "largest_contentful_paint" .null) (.num 0)
  let fid := pyOr (← pyGet page_timing "first_input_delay" .null) (.num 0)
  let connection_time := pyOr (← pyGet page_timing "connection_time" .null) (.num 0)
  let ttfb := pyOr (← pyGet page_timing "waiting_time" .null) (.num 0)
  let download_time := pyOr (← pyGet page_timing "download_time" .null) (.num 0)
  let duration_time := pyOr (← pyGet page_timing "duration_time" .null) (.num 0)
  let load_time_ms := pyOr time_to_interactive (pyOr dom_complete (pyOr download_time (.num 0)))
  let word_count := pyOr (← pyGet content_info "plain_text_word_count" (.num 0)) (.num 0)
  let plain_text_size := pyOr (← pyGet content_info "plain_text_size" (.num 0)) (.num 0)
  let plain_text_rate := pyOr (← pyGet content_info "plain_text_rate" (.num 0)) (.num 0)
  let automated_readability := pyOr (← pyGet content_info "automated_readability_index" .null) (.num 0)
  let coleman_liau := pyOr (← pyGet content_info "coleman_liau_readability_index" .null) (.num 0)
  let flesch_kincaid := pyOr (← pyGet content_info "flesch_kincaid_readability_index" .null) (.num 0)
  let smog := pyOr (← pyGet content_info "smog_readability_index" .null) (.num 0)
  let internal_links := pyOr (← pyGet meta "internal_links_count" (.num 0)) (.num 0)
  let external_links := pyOr (← pyGet meta "external_links_count" (.num 0)) (.num 0)
  let inbound_links := pyOr (← pyGet meta "inbound_links_count" (.num 0)) (.num 0)
  let images_count := pyOr (← pyGet meta "images_count" (.num 0)) (.num 0)
  let images_size := pyOr (← pyGet meta "images_size" (.num 0)) (.num 0)
  let scripts_count := pyOr (← pyGet meta "scripts_count" (.num 0)) (.num 0)
  let scripts_size := pyOr (← pyGet meta "scripts_size" (.num 0)) (.num 0)
  let stylesheets_count := pyOr (← pyGet meta "stylesheets_count" (.num 0)) (.num 0)
  let stylesheets_size := pyOr (← pyGet meta "stylesheets_size" (.num 0)) (.num 0)
  let canonical := pyOr (← pyGet meta "canonical" .null) (.str "")
  let meta_keywords := pyOr (← pyGet meta "meta_keywords" .null) (.str "")
  let favicon := pyOr (← pyGet meta "favicon" .null) (.str "")
  let generator := pyOr (← pyGet meta "generator" .null) (.str "")
  let charset := pyOr (← pyGet meta "charset" .null) (.num 0)
  let cumulative_layout_shift := pyOr (← pyGet meta "cumulative_layout_shift" .null) (.num 0)
  let render_blocking_scripts := pyOr (← pyGet meta "render_blocking_scripts_count" (.num 0)) (.num 0)
  let render_blocking_stylesheets := pyOr (← pyGet meta "render_blocking_stylesheets_count" (.num 0)) (.num 0)
  let page_size := pyOr (← pyGet page "size" (.num 0)) (.num 0)
  let encoded_size := pyOr (← pyGet page "encoded_size" (.num 0)) (.num 0)
  let total_transfer_size := pyOr (← pyGet page "total_transfer_size" (.num 0)) (.num 0)
  let fetch_time := pyOr (← pyGet page "fetch_time" .null) (.str "")
  let click_depth := pyOr (← pyGet page "click_depth" (.num 0)) (.num 0)
  let total_dom_size := pyOr (← pyGet page "total_dom_size" (.num 0)) (.num 0)
  let url ← pyGet page "url" .null
  let status_code ← pyGet page "status_code" .null
  let onpage_score ← pyGet page "onpage_score" (.num 0)
  let resource_type ← pyGet page "resource_type" (.str "html")
  let title_length ← pyLen title
  let description_length ← pyLen description
  let h1_count ← pyLen h1_list
  let h2_count ← pyLen h2_list
  let h3_count ← pyLen h3_list
  let https_flag ← pyGet checks "is_https" (.bool false)
  let is_https ← if truthy https_flag then pure https_flag else do
    let u2 ← pyGet page "url" (.str "")
    pure (Json.bool ((pyStr u2).startsWith "https"))
  let is_http ← pyGet checks "is_http" (.bool false)
  let has_schema ← pyGet checks "has_micromarkup" (.bool false)
  let is_cacheable ← pyGet cache_control "cachable" (.bool false)
  let cache_ttl ← pyGet cache_control "ttl" (.num 0)
  let issues ← computeIssues page checks
    (!truthy title) (!truthy description) (h1_count = 0) (1 < h1_count)
    (60 < title_length) (0 < title_length ∧ title_length < 30)
    (160 < description_length) (!truthy canonical)
    load_time_ms word_count
  pure (Json.obj
    [("url", url), ("status_code", status_code),
     ("onpage_score", onpage_score), ("resource_type", resource_type),
     ("title", title), ("title_length", .num title_length),
     ("description", description),
     ("description_length", .num description_length),
     ("canonical", canonical), ("meta_keywords", meta_keywords),
     ("h1", h1_list), ("h1_count", .num h1_count),
     ("h2", h2_list), ("h2_count", .num h2_count),
     ("h3", h3_list), ("h3_count", .num h3_count),
     ("load_time", load_time_ms),
     ("time_to_interactive", time_to_interactive),
     ("dom_complete", dom_complete),
     ("largest_contentful_paint", lcp), ("first_input_delay", fid),
     ("cumulative_layout_shift", cumulative_layout_shift),
     ("ttfb", ttfb), ("connection_time", connection_time),
     ("download_time", download_time), ("duration_time", duration_time),
     ("page_size", page_size), ("encoded_size", encoded_size),
     ("total_transfer_size", total_transfer_size),
     ("total_dom_size", total_dom_size), ("word_count", word_count),
     ("plain_text_size", plain_text_size),
     ("plain_text_rate", plain_text_rate),
     ("automated_readability_index", automated_readability),
     ("coleman_liau_index", coleman_liau),
     ("flesch_kincaid_index", flesch_kincaid), ("smog_index", smog),
     ("internal_links_count", internal_links),
     ("external_links_count", external_links),
     ("inbound_links_count", inbound_links),
     ("images_count", images_count), ("images_size", images_size),
     ("scripts_count", scripts_count), ("scripts_size", scripts_size),
     ("stylesheets_count", stylesheets_count),
     ("stylesheets_size", stylesheets_size),
     ("render_blocking_scripts", render_blocking_scripts),
     ("render_blocking_stylesheets", render_blocking_stylesheets),
     ("is_https", is_https), ("is_http", is_http),
     ("has_schema", has_schema), ("click_depth", click_depth),
     ("fetch_time", fetch_time), ("favicon", favicon),
     ("generator", generator), ("charset", charset),
     ("is_cacheable", is_cacheable), ("cache_ttl", cache_ttl),
     ("dfs_checks", checks), ("issues", issues)])

end SeoAudit

namespace SeoAudit

/-! ## Provider-fetch boundary (`dataforseo_client.py`)

Each fetch function is embedded over (a) the credential environment and
(b) the outcome of the HTTP round-trip
(`requests.post/get` + `raise_for_status()` + `.json()`), which is
either a `requests.exceptions.RequestException` message or a parsed
JSON document. -/

/-- The two environment variables read by `get_auth_header`. -/
structure Creds where
  login : Option String
  password : Option String

/-- Python truthiness of `os.getenv(...)`: unset or empty is falsy. -/
def credTruthy : Option String → Bool
  | none => false
  | some s => s ≠ ""

/-- `get_auth_header()` (lines 20–30): raises `ValueError` when either
credential is missing; the base64 encoding of the header is elided. -/
def get_auth_header (env : Creds) : Except PyExc String :=
  if !credTruthy env.login || !credTruthy env.password then
    .error (.valueError "DataForSEO credentials not configured. Set DATAFORSEO_LOGIN and DATAFORSEO_PASSWORD.")
  else
    .ok ("Basic " ++ env.login.getD "" ++ ":" ++ env.password.getD "")

/-- The outcome of one HTTP call, re-raised inside the function body as
a `RequestException` when the transport failed. -/
def liftNet (net : Except String Json) : Except PyExc Json :=
  match net with
  | .ok d => .ok d
  | .error m => .error (.requestExc m)

/-- `except requests.exceptions.RequestException as e:` — the only
handler of `get_audit_status`, `get_audit_summary`, `get_page_issues`
and `get_lighthouse_audit`; every other exception propagates. -/
def catchReq (body : Except PyExc Json) : Except PyExc Json :=
  match body with
  | .error (.requestExc m) =>
      .ok (Json.obj [("success", .bool false), ("error", .str m)])
  | r => r

/-- The handler pair of `start_onpage_audit`:
`except RequestException` then `except Exception`, both returning a
failure dict, so no exception at all escapes. -/
def catchAllStart (body : Except PyExc Json) : Json :=
  match body with
  | .ok r => r
  | .error (.requestExc m) =>
      Json.obj [("success", .bool false), ("error", .str m)]
  | .error e =>
      Json.obj [("success", .bool false),
                ("error", .str ("Unexpected error: " ++ e.msg))]

/-- `start_onpage_audit(domain, max_pages)` (lines 33–88); the request
payload does not influence the observable result and is elided. -/
def start_onpage_audit (env : Creds) (net : Except String Json) : Json :=
  catchAllStart (do
    let _ ← get_auth_header env
    let data ← liftNet net
    let sc ← pyGet data "status_code" .null
    let tv ← pyGet data "tasks" .null
    if pyEq sc (.num 20000) && truthy tv then
      let tasks := pyOr tv (.arr [])
      let n ← pyLen tasks
      if 0 < n then do
        let task ← pyIndex tasks 0
        match task with
        | .null =>
          pure (Json.obj [("success", .bool false),
            ("error", .str "API returned empty or null task list")])
        | _ => do
          let tid ← match task with
            | .obj _ => pyGet task "id" .null
            | _ => pure Json.null
          let st ← match task with
            | .obj _ => pyGet task "status_message" .null
            | _ => pure (Json.str "Unknown")
          let cost ← match task with
            | .obj _ => pyGet task "cost" (.num 0)
            | _ => pure (Json.num 0)
          pure (Json.obj [("success", .bool true), ("task_id", tid),
                          ("status", st), ("cost", cost)])
      else
        pure (Json.obj [("success", .bool false),
          ("error", .str "API returned empty or null task list")])
    else do
      let em ← pyGet data "status_message" (.str "Unknown error")
      pure (Json.obj [("success", .bool false), ("error", em)]))

/-- The early-returning loop of `get_audit_status`:
`for task in data['tasks'][0].get('result', [])`. -/
def findReadyTask (task_id : String) :
    List Json → Except PyExc (Option Json)
  | [] => .ok none
  | t :: rest => do
    let i ← pyGet t "id" .null
    if pyEq i (.str task_id) then
      pure (some (Json.obj [("success", .bool true), ("ready", .bool true),
                            ("task_id", .str task_id)]))
    else findReadyTask task_id rest

/-- `get_audit_status(task_id)` (lines 91–127): only
`RequestException` is caught; anything else — including the
missing-credential `ValueError` — propagates to the caller. -/
def get_audit_status (env : Creds) (net : Except String Json)
    (task_id : String) : Except PyExc Json :=
  catchReq (do
    let _ ← get_auth_header env
    let data ← liftNet net
    let tv ← pyGet data "tasks" .null
    let inProgress := Json.obj [("success", .bool true),
      ("ready", .bool false), ("message", .str "Task still in progress")]
    if truthy tv then do
      let t0 ← pyIndex tv 0
      let res ← pyGet t0 "result" (.arr [])
      let items ← pyIter res
      match ← findReadyTask task_id items with
      | some r => pure r
      | none => pure inProgress
    else pure inProgress)

/-- `get_audit_summary(task_id)` (lines 130–226), debug prints elided. -/
def get_audit_summary (env : Creds) (net : Except String Json) :
    Except PyExc Json :=
  catchReq (do
    let _ ← get_auth_header env
    let data ← liftNet net
    let sc ← pyGet data "status_code" .null
    let tv ← pyGet data "tasks" .null
    if pyEq sc (.num 20000) && truthy tv then do
      let task_result ← pyIndex tv 0
      let result_list ← pyGet task_result "result" (.arr [])
      let result := match result_list with
        | .arr (x :: _) => match x with | .obj _ => x | _ => Json.obj []
        | _ => Json.obj []
      let cpv ← pyGet result "crawl_progress" .null
      let crawl_progress_status := match cpv with
        | .str s => Json.str s
        | .obj _ => Json.str "in_progress"
        | _ => Json.str "unknown"
      let crawl_progress_stats := match cpv with
        | .obj kvs => Json.obj kvs
        | _ => Json.obj []
      let pm ← pyGet result "page_metrics" .null
      let page_metrics := pyOr pm (.obj [])
      let target ← pyGet result "target" (.str "")
      let pages_crawled ←
        if truthy crawl_progress_stats then
          pyGet crawl_progress_stats "pages_crawled" (.num 0)
        else do
          let cs ← pyGet result "crawl_status" .null
          pyGet (pyOr cs (.obj [])) "pages_crawled" (.num 0)
      let pages_in_queue ←
        if truthy crawl_progress_stats then
          pyGet crawl_progress_stats "pages_in_queue" (.num 0)
        else do
          let cs ← pyGet result "crawl_status" .null
          pyGet (pyOr cs (.obj [])) "pages_in_queue" (.num 0)
      let onpage_score ← pyGet result "onpage_score" (.num 0)
      let total_pages ← pyGet result "total_pages" (.num 0)
      let pages_with_issues ← pyGet result "pages_with_issues" (.num 0)
      let duplicate_title ← pyGet page_metrics "duplicate_title" (.num 0)
      let duplicate_description ← pyGet page_metrics "duplicate_description" (.num 0)
      let duplicate_content ← pyGet page_metrics "duplicate_content" (.num 0)
      let broken_links ← pyGet page_metrics "broken_links" (.num 0)
      let broken_images ← pyGet page_metrics "broken_resources" (.num 0)
      let links_internal ← pyGet page_metrics "links_internal" (.num 0)
      let links_external ← pyGet page_metrics "links_external" (.num 0)
      let non_indexable ← pyGet page_metrics "non_indexable" (.num 0)
      let avg_page_load_time ← pyGet result "avg_page_load_time" (.num 0)
      let avg_page_size ← pyGet result "avg_page_size" (.num 0)
      let ssl_info ← pyGet result "ssl_info" (.obj [])
      let ssl_enabled ← pyGet ssl_info "valid_certificate" (.bool false)
      let wr ← pyGet result "www_redirect_status_code" .null
      let www_redirect := Json.bool (match wr with | .null => false | _ => true)
      let checks ← pyGet result "checks" (.obj [])
      let has_sitemap ← pyGet checks "sitemap" (.bool false)
      pure (Json.obj [("success", .bool true), ("summary", Json.obj
        [("domain", target),
         ("crawl_progress", crawl_progress_status),
         ("pages_crawled", pages_crawled),
         ("pages_in_queue", pages_in_queue),
         ("onpage_score", onpage_score),
         ("total_pages", total_pages),
         ("page_metrics", page_metrics),
         ("pages_with_issues", pages_with_issues),
         ("duplicate_title", duplicate_title),
         ("duplicate_description", duplicate_description),
         ("duplicate_content", duplicate_content),
         ("broken_links", broken_links),
         ("broken_images", broken_images),
         ("links_internal", links_internal),
         ("links_external", links_external),
         ("non_indexable", non_indexable),
         ("avg_page_load_time", avg_page_load_time),
         ("avg_page_size", avg_page_size),
         ("ssl_enabled", ssl_enabled),
         ("www_redirect", www_redirect),
         ("has_sitemap", has_sitemap)])])
    else do
      let em ← pyGet data "status_message" (.str "Unknown error")
      pure (Json.obj [("success", .bool false), ("error", em)]))

/-- `get_page_issues(task_id, ...)` (lines 229–485): the wrapper around
`formatPage`, with the same catch-only-`RequestException` structure. -/
def get_page_issues (env : Creds) (net : Except String Json) :
    Except PyExc Json :=
  catchReq (do
    let _ ← get_auth_header env
    let data ← liftNet net
    let sc ← pyGet data "status_code" .null
    let tv ← pyGet data "tasks" .null
    if pyEq sc (.num 20000) && truthy tv then do
      let t0 ← pyIndex tv 0
      let result_list ← pyGet t0 "result" (.arr [Json.obj []])
      let r0 ← pyIndex result_list 0
      let result := pyOr r0 (.obj [])
      let items ← pyGet result "items" .null
      let pages := pyOr items (.arr [])
      let pageList ← pyIter pages
      let formatted ← pageList.mapM formatPage
      let dl ← pyLen pages
      let total ← pyGet result "total_count" (.num dl)
      pure (Json.obj [("success", .bool true), ("total_count", total),
                      ("pages", .arr formatted)])
    else do
      let em ← pyGet data "status_message" (.str "Unknown error")
      pure (Json.obj [("success", .bool false), ("error", em)]))

/-- One category score of `get_lighthouse_audit` (line 526 ff.):
`int((categories.get(name, {}).get('score') or 0) * 100)`. -/
def catScore (categories : Json) (name : String) : Except PyExc Json := do
  let c ← pyGet categories name (.obj [])
  let s ← pyGet c "score" .null
  let prod ← pyMul (pyOr s (.num 0)) (.num 100)
  pure (.num ((pyTrunc prod : ℤ) : ℚ))

/-- `audits.get(key, {}).get('displayValue')`. -/
def audDisplay (audits : Json) (k : String) : Except PyExc Json := do
  let a ← pyGet audits k (.obj [])
  pyGet a "displayValue" .null

/-- `get_lighthouse_audit(url, for_mobile)` (lines 488–547). -/
def get_lighthouse_audit (env : Creds) (net : Except String Json)
    (url : String) : Except PyExc Json :=
  catchReq (do
    let _ ← get_auth_header env
    let data ← liftNet net
    let sc ← pyGet data "status_code" .null
    let tv ← pyGet data "tasks" .null
    if pyEq sc (.num 20000) && truthy tv then do
      let t0 ← pyIndex tv 0
      let result_list ← pyGet t0 "result" (.arr [Json.obj []])
      let result ← pyIndex result_list 0
      let categories ← pyGet result "categories" (.obj [])
      let audits ← pyGet result "audits" (.obj [])
      let performance ← catScore categories "performance"
      let seo ← catScore categories "seo"
      let accessibility ← catScore categories "accessibility"
      let best_practices ← catScore categories "best-practices"
      let lcp ← audDisplay audits "largest-contentful-paint"
      let fid ← audDisplay audits "max-potential-fid"
      let cls ← audDisplay audits "cumulative-layout-shift"
      let fcp ← audDisplay audits "first-contentful-paint"
      let tti ← audDisplay audits "interactive"
      let tbt ← audDisplay audits "total-blocking-time"
      let speed_index ← audDisplay audits "speed-index"
      pure (Json.obj [("success", .bool true), ("url", .str url),
        ("scores", Json.obj [("performance", performance), ("seo", seo),
          ("accessibility", accessibility),
          ("best_practices", best_practices)]),
        ("core_web_vitals", Json.obj [("lcp", lcp), ("fid", fid),
          ("cls", cls), ("fcp", fcp), ("tti", tti), ("tbt", tbt),
          ("speed_index", speed_index)])])
    else do
      let em ← pyGet data "status_message" (.str "Unknown error")
      pure (Json.obj [("success", .bool false), ("error", em)]))

end SeoAudit

namespace SeoAudit

/-! ## Deck Assembler (`deep_audit_slides.py`, lines 174–490)

The observable modelled here is the ordered sequence of
slide-construction units the function emits (each unit is one
`requests.extend(create_slide_*(...))` call); the fixed-geometry draw
payload inside each unit depends only on the unit's inputs and is
elided, but every data-dependent computation that can raise — and
thereby abort the whole batch — is retained. -/

/-- One slide-construction unit of the deck. -/
inductive SlideUnit where
  | cover
  | homepageSnapshot
  | scareExplainer (topic : String)
  | imageSlide (key : String)
  | imageWithBullets (key : String)
  | trafficDashboard
  | kwTable
  | issueTable
  | speedFallback
  | thankYou
  deriving Repr, DecidableEq

/-- The image gate `screenshots and screenshots.get(key)`. -/
def screenshotHas (screenshots : Json) (k : String) : Except PyExc Bool :=
  if truthy screenshots then do
    pure (truthy (← pyGet screenshots k .null))
  else pure false

/-- The data-dependent part of `create_slide_traffic_dashboard`
(lines 1064–1094).  The per-keyword CTR estimate is computed over exact
rationals; no theorem below evaluates it on inputs where binary64
rounding could shift the truncation. -/
def create_slide_traffic_dashboard_data (rank backlinks keywords : Json) :
    Except PyExc Unit := do
  let rank_metrics ← if truthy rank then pyGet rank "metrics" .null
    else pure Json.null
  let organic ← if truthy rank_metrics then pyGet rank_metrics "organic" .null
    else pure Json.null
  let (etv, kw_count) ←
    if truthy organic then do
      let e := pyOr (← pyGet organic "etv" (.num 0)) (.num 0)
      let c := pyOr (← pyGet organic "count" (.num 0)) (.num 0)
      pure (e, c)
    else do
      let kws := pyOr keywords (.arr [])
      let items ← pyIter kws
      let etv ← items.foldlM (fun (acc : ℚ) kw => do
        let kd ← pyGet kw "keyword_data" (.obj [])
        let kw_info ← pyGet kd "keyword_info" (.obj [])
        let vol := pyOr (← pyGet kw_info "search_volume" (.num 0)) (.num 0)
        let rse ← pyGet kw "ranked_serp_element" (.obj [])
        let serp ← pyGet rse "serp_item" (.obj [])
        let pos ← pyGet serp "rank_absolute" (.num 100)
        let ctr : ℚ ←
          if ← pyLeC pos 10 then
            match asNum pos with
            | some p => pure (max (1/100) (3/10 - p * (2/100)))
            | none => throw PyExc.typeError
          else pure (1/100)
        let prod ← pyMul vol (.num ctr)
        pure (acc + ((pyTrunc prod : ℤ) : ℚ))) 0
      let n ← pyLen kws
      pure (Json.num etv, Json.num (n : ℚ))
  let ref_domains ← if truthy backlinks then
      pyGet backlinks "referring_domains" (.num 0)
    else pure (Json.num 0)
  let total_backlinks ← if truthy backlinks then
      pyGet backlinks "total_backlinks" (.num 0)
    else pure (Json.num 0)
  let _ ← format_number kw_count
  let _ ← format_number etv
  if truthy etv then do
    let _ ← pyMul etv (.num 2)
    pure ()
  if truthy ref_domains then do
    let _ ← format_number ref_domains
    pure ()
  if truthy total_backlinks then do
    let _ ← format_number total_backlinks
    pure ()
  if truthy keywords then do
    let kws := pyOr keywords (.arr [])
    let items ← pyIter kws
    let _ ← items.foldlM (fun (acc : Json) kw => do
      let rse ← pyGet kw "ranked_serp_element" (.obj [])
      let serp ← pyGet rse "serp_item" (.obj [])
      let ra ← pyGet serp "rank_absolute" (.num 0)
      pyAdd acc ra) (Json.num 0)
    pure ()

/-- The data-dependent part of `create_slide_kw_table`
(lines 1158–1168), applied to `keywords[:7]`. -/
def create_slide_kw_table_data (keywords : Json) : Except PyExc Unit := do
  let items ← pyIter keywords
  items.foldlM (fun _ kw => do
    let kd ← pyGet kw "keyword_data" (.obj [])
    let kw_info ← pyGet kd "keyword_info" (.obj [])
    let rse ← pyGet kw "ranked_serp_element" (.obj [])
    let serp ← pyGet rse "serp_item" (.obj [])
    let kwname ← pyGet kd "keyword" (.str "")
    let _ ← pySlice kwname 30
    let sv ← pyGet kw_info "search_volume" (.num 0)
    let _ ← format_number sv
    let _ ← pyGet kw_info "competition_level" (.str "-")
    let cpc ← pyGet kw_info "cpc" (.num 0)
    let _ ← format_currency cpc
    let _ ← pyGet serp "rank_absolute" (.str "-")
    pure ()) ()

/-- The data-dependent part of `create_slide_issue_table`
(lines 1176–1197): each listed page's `url` must be a string
(`.replace` on anything else raises). -/
def create_slide_issue_table_data (pages_with_issue : List Json) :
    Except PyExc Unit := do
  (pages_with_issue.take 5).foldlM (fun _ p => do
    let url ← pyGet p "url" (.str "")
    match url with
    | .str _ => pure ()
    | _ => throw PyExc.attributeError) ()

/-- `bad_meta = [p for p in pages if p.get('issues', {}).get('title_too_long')][:5]`
(line 342). -/
def bad_meta_calc (pages : Json) : Except PyExc (List Json) := do
  let items ← pyIter pages
  let filtered ← items.foldlM (fun acc p => do
    let iss ← pyGet p "issues" (.obj [])
    let v ← pyGet iss "title_too_long" .null
    pure (if truthy v then acc ++ [p] else acc)) []
  pure (filtered.take 5)

/-- The meta-issue counting of the screenshot branch (lines 313–330):
caller-supplied `issue_counts` wins, otherwise recount from pages. -/
def meta_counts_calc (issue_counts pages : Json) : Except PyExc Unit := do
  if truthy issue_counts then do
    let _ ← pyGet issue_counts "titleTooLong" (.num 0)
    let _ ← pyGet issue_counts "noDesc" (.num 0)
    let _ ← pyGet issue_counts "descTooLong" (.num 0)
    pure ()
  else do
    let items ← pyIter pages
    items.foldlM (fun _ p => do
      let m0 ← pyGet p "meta" .null
      let meta := match m0 with | .obj _ => m0 | _ => Json.obj []
      let t1 ← pyGet meta "title" .null
      let title ← if truthy t1 then pure t1 else do
        let b ← pyGet p "title" .null
        pure (pyOr b (.str ""))
      let d1 ← pyGet meta "description" .null
      let desc ← if truthy d1 then pure d1 else do
        let b ← pyGet p "description" .null
        pure (pyOr b (.str ""))
      let _tl ← pyLen title
      if truthy desc then do
        let _dl ← pyLen desc
        pure ()
      ) ()

/-- The heading-issue counting of the screenshot branch
(lines 353–414): caller-supplied `issue_counts` wins, otherwise the
duplicate-heading fallback runs; the bullet guards compare each count
with 0. -/
def heading_counts_calc (issue_counts pages : Json) : Except PyExc Unit := do
  if truthy issue_counts then do
    let noH1 ← pyGet issue_counts "noH1" (.num 0)
    let multiH1 ← pyGet issue_counts "multiH1" (.num 0)
    let noH2 ← pyGet issue_counts "noH2" (.num 0)
    let manyH2 ← pyGet issue_counts "manyH2" (.num 0)
    let noH3 ← pyGet issue_counts "noH3" (.num 0)
    let manyH3 ← pyGet issue_counts "manyH3" (.num 0)
    let dupH1 ← pyGet issue_counts "dupH1" (.num 0)
    let dupH2 ← pyGet issue_counts "dupH2" (.num 0)
    let dupH3 ← pyGet issue_counts "dupH3" (.num 0)
    let _ ← pyGtC noH1 0
    let _ ← pyGtC multiH1 0
    let _ ← pyGtC dupH1 0
    let _ ← pyGtC noH2 0
    let _ ← pyGtC manyH2 0
    let _ ← pyGtC dupH2 0
    let _ ← pyGtC noH3 0
    let _ ← pyGtC manyH3 0
    let _ ← pyGtC dupH3 0
    pure ()
  else do
    let _ ← headingFallbackCounts pages
    pure ()

/-- The readability branch (lines 438–449): average the
`flesch_kincaid_grade` of the dict-shaped result records. -/
def content_readability_calc (data : Json) : Except PyExc String := do
  let rr ← pyGet data "readability_results" (.arr [])
  let avg_grade : ℚ ←
    if truthy rr then do
      let items ← pyIter rr
      let grades ← items.foldlM (fun acc r =>
        match r with
        | .obj _ => do
          let g ← pyGet r "flesch_kincaid_grade" (.num 0)
          pure (acc ++ [g])
        | _ => pure acc) []
      if grades.isEmpty then pure 0
      else do
        let s ← grades.foldlM (fun acc g => pyAdd acc g) (Json.num 0)
        match asNum s with
        | some q => pure (q / (grades.length : ℚ))
        | none => throw PyExc.typeError
    else pure 0
  get_readability_annotation (.num avg_grade)

/-- The speed-screenshot branch (lines 458–469).  `json.loads` of a
string-valued `pagespeed` blob is abstracted as its failure outcome
`{}` (the parsed value only feeds the annotation text, never the unit
sequence). -/
def speed_screenshot_calc (data annotations : Json) : Except PyExc Unit := do
  let ps0 ← pyGet data "pagespeed" (.obj [])
  let pagespeed_data := match ps0 with | .str _ => Json.obj [] | _ => ps0
  let scores ← pyGet pagespeed_data "scores" (.obj [])
  let performance_score := pyOr (← pyGet scores "performance" (.num 0)) (.num 0)
  let dflt ← get_speed_annotation performance_score
  let _ ← pyGet annotations "speed_analysis" (.str dflt)
  pure ()

/-- `avg_load_time` of the speed fallback (line 472). -/
def avg_load_time_calc (pages : Json) : Except PyExc ℚ := do
  if truthy pages then do
    let items ← pyIter pages
    let s ← items.foldlM (fun acc p => do
      let lt ← pyGet p "load_time" (.num 0)
      pyAdd acc lt) (Json.num 0)
    let n ← pyLen pages
    match asNum s with
    | some q => pure (q / (max 1 n : ℚ))
    | none => throw PyExc.typeError
  else pure 0

/-- The data extraction and derived-metric prelude of
`create_deep_audit_slides` (lines 191–269).  The unused `summary`
extraction (lines 202–208) is elided — a string payload is parsed
inside a bare `try/except` and the value is never read again. -/
structure DeckInputs where
  rank_overview : Json
  backlinks : Json
  keywords : Json
  pages : Json
  total_traffic : Json
  total_keywords : Json
  needs_work_count : ℕ
  referring_domains : Json

/-- Lines 191–269 of `create_deep_audit_slides`. -/
def deckPrelude (data : Json) : Except PyExc DeckInputs := do
  let rank_overview ← pyGet data "domain_rank" (.obj [])
  let backlinks ← pyGet data "backlinks_summary" (.obj [])
  let keywords ← pyGet data "organic_keywords" (.arr [])
  let _spammy_links ← pyGet data "referring_domains" (.arr [])
  let raw_pages ← pyGet data "pages" .null
  let pages ← match raw_pages with
    | .obj _ => pyGet raw_pages "pages" (.arr [])
    | .arr xs => pure (Json.arr xs)
    | _ => pure (Json.arr [])
  let total_traffic := pyOr (← pyGet data "total_traffic" (.num 0)) (.num 0)
  let total_keywords := pyOr (← pyGet data "total_keywords" (.num 0)) (.num 0)
  let (total_traffic, total_keywords) ←
    if pyEq total_traffic (.num 0) || pyEq total_keywords (.num 0) then do
      let metrics ← if truthy rank_overview then
          pyGet rank_overview "metrics" (.obj [])
        else pure (Json.obj [])
      let om ← if truthy metrics then pyGet metrics "organic" .null
        else pure (Json.obj [])
      let organic_metrics := if truthy om then om else Json.obj []
      let tt ← if pyEq total_traffic (.num 0) then do
          pure (pyOr (← pyGet organic_metrics "etv" (.num 0)) (.num 0))
        else pure total_traffic
      let tk ← if pyEq total_keywords (.num 0) then do
          pure (pyOr (← pyGet organic_metrics "count" (.num 0)) (.num 0))
        else pure total_keywords
      pure (tt, tk)
    else pure (total_traffic, total_keywords)
  let total_keywords ←
    if pyEq total_keywords (.num 0) && truthy keywords then do
      pure (Json.num ((← pyLen keywords) : ℚ))
    else pure total_keywords
  let metrics ← if truthy rank_overview then
      pyGet rank_overview "metrics" (.obj [])
    else pure (Json.obj [])
  let om ← if truthy metrics then pyGet metrics "organic" .null
    else pure (Json.obj [])
  let organic_metrics := if truthy om then om else Json.obj []
  let pos_1 := pyOr (← pyGet organic_metrics "pos_1" (.num 0)) (.num 0)
  let pos_2_3 := pyOr (← pyGet organic_metrics "pos_2_3" (.num 0)) (.num 0)
  let pos_4_10 := pyOr (← pyGet organic_metrics "pos_4_10" (.num 0)) (.num 0)
  let _top_10_count ← pyAdd (← pyAdd pos_1 pos_2_3) pos_4_10
  let needs_work_count ← needsWorkCount keywords
  let referring_domains := pyOr (← pyGet backlinks "referring_domains" (.num 0)) (.num 0)
  pure ⟨rank_overview, backlinks, keywords, pages, total_traffic,
        total_keywords, needs_work_count, referring_domains⟩

/-- `create_deep_audit_slides(data, domain, creds, screenshots,
annotations, issue_counts)`: the ordered slide-unit sequence it
batches, with every raising computation along the way, assembled
section by section in source order. -/
def create_deep_audit_slides (data screenshots annots issue_counts : Json) :
    Except PyExc (List SlideUnit) := do
  let d ← deckPrelude data
  let high_spam_count := Json.num 0
  let annots := if truthy annots then annots else Json.obj []
  let sec_homepage ←
    if ← screenshotHas screenshots "homepage" then
      pure [SlideUnit.homepageSnapshot]
    else pure []
  let sec_traffic ←
    if ← screenshotHas screenshots "traffic_overview" then
      pure [SlideUnit.imageSlide "traffic_overview"]
    else do
      create_slide_traffic_dashboard_data d.rank_overview d.backlinks d.keywords
      pure [SlideUnit.trafficDashboard]
  let sec_keywords ←
    if ← screenshotHas screenshots "keywords_report" then do
      let dflt ← get_keywords_annotation d.total_keywords
        (Json.num (d.needs_work_count : ℚ))
      let _ ← pyGet annots "keywords_report" (.str dflt)
      pure [SlideUnit.imageSlide "keywords_report"]
    else do
      let sliced ← pySlice d.keywords 7
      create_slide_kw_table_data sliced
      pure [SlideUnit.kwTable]
  let sec_meta ←
    if ← screenshotHas screenshots "meta_issues" then do
      meta_counts_calc issue_counts d.pages
      pure [SlideUnit.imageWithBullets "meta_issues"]
    else do
      let bad_meta ← bad_meta_calc d.pages
      create_slide_issue_table_data bad_meta
      pure [SlideUnit.issueTable]
  let sec_headings ←
    if ← screenshotHas screenshots "heading_issues" then do
      heading_counts_calc issue_counts d.pages
      pure [SlideUnit.imageWithBullets "heading_issues"]
    else pure []
  let sec_backlinks ←
    if ← screenshotHas screenshots "backlinks" then do
      let dflt ← get_backlinks_annotation d.referring_domains high_spam_count
      let _ ← pyGet annots "backlinks" (.str dflt)
      pure [SlideUnit.imageSlide "backlinks"]
    else pure []
  let sec_content ←
    if ← screenshotHas screenshots "content_readability" then do
      let _ ← content_readability_calc data
      pure [SlideUnit.imageSlide "content_readability"]
    else pure []
  let sec_speed ←
    if ← screenshotHas screenshots "speed_analysis" then do
      speed_screenshot_calc data annots
      pure [SlideUnit.imageSlide "speed_analysis"]
    else do
      let _avg ← avg_load_time_calc d.pages
      pure [SlideUnit.speedFallback]
  pure ([SlideUnit.cover] ++ sec_homepage ++
    [SlideUnit.scareExplainer "organic"] ++ sec_traffic ++ sec_keywords ++
    [SlideUnit.scareExplainer "meta"] ++ sec_meta ++
    [SlideUnit.scareExplainer "headings"] ++ sec_headings ++
    [SlideUnit.scareExplainer "backlinks"] ++ sec_backlinks ++
    [SlideUnit.scareExplainer "content"] ++ sec_content ++
    [SlideUnit.scareExplainer "speed"] ++ sec_speed ++
    [SlideUnit.thankYou])

end SeoAudit

namespace SeoAudit

/-! ## Auxiliary definitions used by the theorem statements -/

/-- Pure field lookup on an object (used to inspect produced records). -/
def jLookup (d : Json) (k : String) : Option Json :=
  match d with
  | .obj kvs => kvs.lookup k
  | _ => none

/-- Whether a value is a Python boolean. -/
def isBoolJ : Json → Bool
  | .bool _ => true
  | _ => false

/-- Modelled from the spec (§4.1 numeric coercions): the 0–100 score a
provider-native 0..1 float (or null/absent, read as 0) must map to —
scaled by 100 and truncated to an integer. -/
def lighthouseScoreSpec (score : Option ℚ) : ℤ :=
  match score with
  | none => 0
  | some q => pyTrunc (q * 100)

/-- The shape of one category score inside a lighthouse `categories`
object: `some none` when the score is absent or null, `some (some q)`
when it is the number `q`, `none` when the payload has another shape. -/
def providerScore (categories : List (String × Json)) (name : String) :
    Option (Option ℚ) :=
  match categories.lookup name with
  | none => some none
  | some (.obj ckvs) =>
    match ckvs.lookup "score" with
    | none => some none
    | some Json.null => some none
    | some (.num q) => some (some q)
    | some _ => none
  | some _ => none

/-- Whether the nested `ranked_serp_element.serp_item.rank_absolute`
path of a keyword record is absent (each present hop a dict). -/
def rankAbsent (kvs : List (String × Json)) : Bool :=
  match kvs.lookup "ranked_serp_element" with
  | none => true
  | some (.obj rkvs) =>
    match rkvs.lookup "serp_item" with
    | none => true
    | some (.obj skvs) => (skvs.lookup "rank_absolute").isNone
    | some _ => false
  | some _ => false

/-- Modelled from the spec (§4.2): the normalized h1 texts of one page
record — lower-cased, trimmed, length > 3. -/
def specPageH1Texts (p : Json) : List String :=
  match p with
  | .obj kvs =>
    match kvs.lookup "h1" with
    | some (.arr xs) =>
      (xs.map fun v => pyLowerStrip (pyStr v)).filter fun k => 3 < k.length
    | _ => []
  | _ => []

/-- The `url` of a page record, when it is a string. -/
def specPageUrl (p : Json) : Option String :=
  match p with
  | .obj kvs =>
    match kvs.lookup "url" with
    | some (.str s) => some s
    | _ => none
  | _ => none

/-- Modelled from the spec (§4.2 duplicate-heading detection): map each
normalized heading text to the set of page URLs containing it; a value
is a duplicate when it appears on more than one page.  This is the
spec-side reading the duplicate-H1 claim is compared against. -/
def specDupH1 (pages : List Json) : ℕ :=
  ((pages.flatMap specPageH1Texts).toFinset.filter fun k =>
    1 < ((pages.filter fun p => k ∈ specPageH1Texts p).filterMap specPageUrl).dedup.length).card

/-- The slide-unit sequence the Deck Assembler produces when no
screenshot at all is supplied. -/
def unitsNoScreenshots : List SlideUnit :=
  [SlideUnit.cover, SlideUnit.scareExplainer "organic",
   SlideUnit.trafficDashboard, SlideUnit.kwTable,
   SlideUnit.scareExplainer "meta", SlideUnit.issueTable,
   SlideUnit.scareExplainer "headings",
   SlideUnit.scareExplainer "backlinks",
   SlideUnit.scareExplainer "content", SlideUnit.scareExplainer "speed",
   SlideUnit.speedFallback, SlideUnit.thankYou]

end SeoAudit

namespace SeoAudit

/-! ## Theorems -/

/-- Helper: binding a ready `Except` value is substitution. -/
theorem except_ok_bind {α β : Type} (a : α) (f : α → Except PyExc β) :
    Except.ok a >>= f = f a := rfl

/-- Helper: `x or 0` is the identity on numbers. -/
theorem pyOr_num_zero (t : ℚ) : pyOr (.num t) (.num 0) = Json.num t := by
  unfold pyOr truthy
  by_cases h : t = 0 <;> simp [h]

/-- C3 (counterexample).  At traffic 15000 and needs-work 5 the code
returns the emoji-prefixed string `"🔴 Low Organic Traffic"`, which is
not the spec literal `"Low Organic Traffic"`. -/
theorem C3_counterexample :
    get_traffic_annotation_with_needs_work (.num 15000) (.num 5) =
      .ok "🔴 Low Organic Traffic" ∧
    "🔴 Low Organic Traffic" ≠ "Low Organic Traffic" :=
  ⟨rfl, by decide⟩

/-- C3 (amended).  For every traffic value and needs-work count the
annotation is `"🔴 Low Organic Traffic"` when traffic < 20000,
otherwise `"📈 Many keywords need work"` when the count > 20, otherwise
`"✅ Strong Organic Traffic"`; in particular 15000/5 gives the low-traffic
label and 25000/25 the needs-work label. -/
theorem C3_amended (t nw : ℚ) :
    get_traffic_annotation_with_needs_work (.num t) (.num nw) =
      .ok (if t < 20000 then "🔴 Low Organic Traffic"
           else if 20 < nw then "📈 Many keywords need work"
           else "✅ Strong Organic Traffic") ∧
    get_traffic_annotation_with_needs_work (.num 15000) (.num 5) =
      .ok "🔴 Low Organic Traffic" ∧
    get_traffic_annotation_with_needs_work (.num 25000) (.num 25) =
      .ok "📈 Many keywords need work" := by
  refine ⟨?_, rfl, rfl⟩
  unfold get_traffic_annotation_with_needs_work
  rw [pyOr_num_zero, pyOr_num_zero]
  by_cases ht : t < 20000 <;> by_cases hn : 20 < nw <;>
    simp [pyLtC, pyGtC, asNum, ht, hn, except_ok_bind, pure, Except.pure]

/-- C3 (witness): the amended traffic annotation instantiated at
traffic 15000 and needs-work count 5. -/
theorem C3_witness :
    get_traffic_annotation_with_needs_work (.num 15000) (.num 5) =
      .ok (if (15000 : ℚ) < 20000 then "🔴 Low Organic Traffic"
           else if (20 : ℚ) < 5 then "📈 Many keywords need work"
           else "✅ Strong Organic Traffic") ∧
    get_traffic_annotation_with_needs_work (.num 15000) (.num 5) =
      .ok "🔴 Low Organic Traffic" ∧
    get_traffic_annotation_with_needs_work (.num 25000) (.num 25) =
      .ok "📈 Many keywords need work" :=
  C3_amended 15000 5

/-- C7 (counterexample).  At 50 referring domains the code returns the
emoji-prefixed `"⚠️ Needs Link Building"`, not the spec literal
`"Needs Link Building"`. -/
theorem C7_counterexample :
    get_backlinks_annotation (.num 50) (.num 0) =
      .ok "⚠️ Needs Link Building" ∧
    "⚠️ Needs Link Building" ≠ "Needs Link Building" :=
  ⟨rfl, by decide⟩

/-- C7 (amended).  For every referring-domain count the backlink
annotation is `"⚠️ Needs Link Building"` when the count is below 100 and
`"🔴 Many High Spam Backlinks"` otherwise, and the high-spam-count
argument has no effect on the result. -/
theorem C7_amended (rd : ℚ) (hs hs' : Json) :
    get_backlinks_annotation (.num rd) hs =
      get_backlinks_annotation (.num rd) hs' ∧
    get_backlinks_annotation (.num rd) hs =
      .ok (if rd < 100 then "⚠️ Needs Link Building"
           else "🔴 Many High Spam Backlinks") := by
  constructor
  · rfl
  · unfold get_backlinks_annotation
    rw [pyOr_num_zero]
    by_cases h : rd < 100 <;>
      simp [pyLtC, asNum, h, except_ok_bind, pure, Except.pure]

/-- C7 (witness): the amended backlink annotation instantiated at 50
referring domains, comparing a zero and a nonzero high-spam count. -/
theorem C7_witness :
    get_backlinks_annotation (.num 50) (Json.num 0) =
      get_backlinks_annotation (.num 50) (Json.num 7) ∧
    get_backlinks_annotation (.num 50) (Json.num 0) =
      .ok (if (50 : ℚ) < 100 then "⚠️ Needs Link Building"
           else "🔴 Many High Spam Backlinks") :=
  C7_amended 50 (Json.num 0) (Json.num 7)

/-- C6 (counterexample).  `format_number(1_250_000)` yields `"1.2M"`
(the exact quotient 1.25 rounds half-to-even at one decimal), not the
`"1.3M"` the spec example states. -/
theorem C6_counterexample :
    format_number (.num 1250000) = .ok "1.2M" ∧ "1.2M" ≠ "1.3M" :=
  ⟨rfl, by decide⟩

/-- C6 (amended).  The formatting helpers satisfy
`format_number(18500) = "18.5K"`, `format_number(1_250_000) = "1.2M"`
and `format_currency(0.2199999) = "$0.22"`. -/
theorem C6_amended :
    format_number (.num 18500) = .ok "18.5K" ∧
    format_number (.num 1250000) = .ok "1.2M" ∧
    format_currency (.num (mkRat 2199999 10000000)) = .ok "$0.22" :=
  ⟨rfl, rfl, rfl⟩

end SeoAudit

namespace SeoAudit

/-- Helper: `.get` on a dictionary value. -/
theorem pyGet_obj (kvs : List (String × Json)) (k : String) (d : Json) :
    pyGet (.obj kvs) k d = .ok ((kvs.lookup k).getD d) := rfl

/-- Helper: binding a raised exception short-circuits. -/
theorem except_error_bind {α β : Type} (e : PyExc)
    (f : α → Except PyExc β) : (Except.error e : Except PyExc α) >>= f = .error e := rfl

/-- C8.  One pass of the needs-work loop counts a keyword exactly when
the resolved `pos` value is a number p with 20 < p and p ≤ 100; any
other resolved value (null, zero, a non-numeric value, a number out of
range) is not counted. -/
theorem C8_needs_work_iff (kw p : Json) (h : resolvedPos kw = .ok p) :
    (kwNeedsWork kw = .ok true ↔
      ∃ q : ℚ, p = Json.num q ∧ 20 < q ∧ q ≤ 100) := by
  unfold kwNeedsWork
  rw [h, except_ok_bind]
  cases p with
  | null => simp [truthy, pure, Except.pure]
  | bool b =>
    cases b with
    | false => simp [truthy, pure, Except.pure]
    | true =>
      have ht : truthy (Json.bool true) = true := rfl
      have hgt : pyGtC (Json.bool true) 20 = .ok false := by
        norm_num [pyGtC, asNum]
      simp [ht, hgt, except_ok_bind, pure, Except.pure]
  | num q =>
    by_cases hq : q = 0
    · subst hq
      have ht : truthy (Json.num 0) = false := by simp [truthy]
      simp only [ht, Bool.false_eq_true, if_false]
      constructor
      · intro hcon
        simp [pure, Except.pure] at hcon
      · rintro ⟨q', hq', h20, -⟩
        simp only [Json.num.injEq] at hq'
        subst hq'
        exact absurd h20 (by norm_num)
    · have ht : truthy (Json.num q) = true := by simp [truthy, hq]
      by_cases h20 : (20 : ℚ) < q
      · by_cases h100 : q ≤ 100 <;>
          simp [ht, hq, pyGtC, pyLeC, asNum, h20, h100, except_ok_bind,
            pure, Except.pure]
      · simp [ht, hq, pyGtC, asNum, h20, except_ok_bind, pure, Except.pure]
  | str s =>
    by_cases hs : s = ""
    · simp [truthy, hs, pure, Except.pure]
    · have ht : truthy (Json.str s) = true := by simp [truthy, hs]
      simp only [ht, if_true, pyGtC, asNum, except_error_bind]
      constructor
      · intro hcon
        exact Except.noConfusion hcon
      · rintro ⟨q', hq', -⟩
        exact Json.noConfusion hq'
  | arr xs =>
    cases xs with
    | nil => simp [truthy, pure, Except.pure]
    | cons a l =>
      have ht : truthy (Json.arr (a :: l)) = true := rfl
      simp only [ht, if_true, pyGtC, asNum, except_error_bind]
      constructor
      · intro hcon
        exact Except.noConfusion hcon
      · rintro ⟨q', hq', -⟩
        exact Json.noConfusion hq'
  | obj kvs =>
    cases kvs with
    | nil => simp [truthy, pure, Except.pure]
    | cons a l =>
      have ht : truthy (Json.obj (a :: l)) = true := rfl
      simp only [ht, if_true, pyGtC, asNum, except_error_bind]
      constructor
      · intro hcon
        exact Except.noConfusion hcon
      · rintro ⟨q', hq', -⟩
        exact Json.noConfusion hq'

/-- C8 (witness): a keyword ranked 50 resolves to position 50 and is
counted. -/
theorem C8_witness :
    kwNeedsWork (Json.obj [("position", .num 50)]) = .ok true ↔
      ∃ q : ℚ, Json.num 50 = Json.num q ∧ 20 < q ∧ q ≤ 100 :=
  C8_needs_work_iff (Json.obj [("position", .num 50)]) (.num 50) rfl

/-- C10.  A keyword whose `position` field is absent, null or zero and
whose nested `ranked_serp_element.serp_item.rank_absolute` is absent
resolves to position 100 and is therefore counted as needs-work. -/
theorem C10_default_position_counted (kvs : List (String × Json))
    (h : kvs.lookup "position" = none ∨
      ((kvs.lookup "position" = some Json.null ∨
        kvs.lookup "position" = some (Json.num 0)) ∧ rankAbsent kvs = true)) :
    resolvedPos (.obj kvs) = .ok (.num 100) ∧
    kwNeedsWork (.obj kvs) = .ok true := by
  have h100 : truthy (Json.num 100) = true := by
    simp [truthy]
  have hres : resolvedPos (.obj kvs) = .ok (.num 100) := by
    unfold resolvedPos
    simp only [pyGet_obj, except_ok_bind]
    rcases h with h | ⟨h, hr⟩
    · rw [h]
      simp [h100, pure, Except.pure]
    · unfold rankAbsent at hr
      have hstep : (do
          let rse ← Except.ok (ε := PyExc)
            ((kvs.lookup "ranked_serp_element").getD (.obj []))
          let serp_item ← pyGet rse "serp_item" (.obj [])
          pyGet serp_item "rank_absolute" (Json.num 100)) =
            Except.ok (Json.num 100) := by
        rcases hre : kvs.lookup "ranked_serp_element" with _ | j
        · rfl
        · rw [hre] at hr
          cases j with
          | obj rkvs =>
            have hr2 : (match rkvs.lookup "serp_item" with
                | none => true
                | some (Json.obj skvs) => (skvs.lookup "rank_absolute").isNone
                | some _ => false) = true := hr
            simp only [Option.getD_some, except_ok_bind, pyGet_obj]
            rcases hsi : rkvs.lookup "serp_item" with _ | sj
            · rfl
            · rw [hsi] at hr2
              cases sj with
              | obj skvs =>
                have hr3 : (skvs.lookup "rank_absolute").isNone = true := hr2
                simp only [Option.getD_some, except_ok_bind, pyGet_obj]
                rw [Option.isNone_iff_eq_none.mp hr3]
                rfl
              | null => exact absurd hr2 (by simp)
              | bool b => exact absurd hr2 (by simp)
              | num q => exact absurd hr2 (by simp)
              | str sx => exact absurd hr2 (by simp)
              | arr xs => exact absurd hr2 (by simp)
          | null => exact absurd hr (by simp)
          | bool b => exact absurd hr (by simp)
          | num q => exact absurd hr (by simp)
          | str sx => exact absurd hr (by simp)
          | arr xs => exact absurd hr (by simp)
      rcases h with h | h <;> rw [h] <;>
        simp only [Option.getD_some] <;>
        rw [if_neg (by simp [truthy])] <;>
        exact hstep
  refine ⟨hres, ?_⟩
  unfold kwNeedsWork
  rw [hres, except_ok_bind]
  have hgt : pyGtC (Json.num 100) 20 = .ok true := by
    norm_num [pyGtC, asNum]
  have hle : pyLeC (Json.num 100) 100 = .ok true := by
    simp [pyLeC, asNum]
  simp [h100, hgt, hle, except_ok_bind]

/-- C10 (witness): the empty keyword record resolves to 100 and is
counted. -/
theorem C10_witness :
    resolvedPos (.obj []) = .ok (.num 100) ∧
    kwNeedsWork (.obj []) = .ok true :=
  C10_default_position_counted [] (Or.inl rfl)

/-- C9.  When a category score arrives as a 0..1 float or null (or the
category or score is absent), `get_lighthouse_audit` produces the score
scaled by 100 and truncated to an integer, with null read as 0. -/
theorem C9_lighthouse_score (categories : List (String × Json))
    (name : String) (sc : Option ℚ)
    (hshape : providerScore categories name = some sc)
    (hrange : ∀ q ∈ sc, 0 ≤ q ∧ q ≤ 1) :
    catScore (.obj categories) name =
      .ok (.num ((lighthouseScoreSpec sc : ℤ) : ℚ)) := by
  clear hrange
  unfold catScore
  unfold providerScore at hshape
  rw [pyGet_obj]
  rcases hl : categories.lookup name with _ | c <;> rw [hl] at hshape
  · simp only [Option.some.injEq] at hshape
    subst hshape
    simp only [Option.getD_none, except_ok_bind, pyGet_obj,
      List.lookup_nil]
    have : pyOr Json.null (.num 0) = Json.num 0 := rfl
    simp only [Option.getD_none, this]
    have hm : pyMul (Json.num 0) (.num 100) = .ok (0 * 100) := rfl
    rw [hm, except_ok_bind]
    have : (0 * 100 : ℚ) = 0 := by norm_num
    rw [this]
    rfl
  · cases c with
    | obj ckvs =>
      have hshape2 : (match ckvs.lookup "score" with
          | none => some none
          | some Json.null => some none
          | some (Json.num q) => some (some q)
          | some _ => none) = some sc := hshape
      clear hshape
      simp only [Option.getD_some, except_ok_bind, pyGet_obj]
      rcases hs : ckvs.lookup "score" with _ | sv <;> rw [hs] at hshape2
      · simp only [Option.some.injEq] at hshape2
        subst hshape2
        simp only [Option.getD_none]
        have : pyOr Json.null (.num 0) = Json.num 0 := rfl
        rw [this]
        have hm : pyMul (Json.num 0) (.num 100) = .ok (0 * 100) := rfl
        rw [hm, except_ok_bind]
        have : (0 * 100 : ℚ) = 0 := by norm_num
        rw [this]
        rfl
      · cases sv with
        | null =>
          simp only [Option.some.injEq] at hshape2
          subst hshape2
          simp only [Option.getD_some]
          have : pyOr Json.null (.num 0) = Json.num 0 := rfl
          rw [this]
          have hm : pyMul (Json.num 0) (.num 100) = .ok (0 * 100) := rfl
          rw [hm, except_ok_bind]
          have : (0 * 100 : ℚ) = 0 := by norm_num
          rw [this]
          rfl
        | num q =>
          simp only [Option.some.injEq] at hshape2
          subst hshape2
          simp only [Option.getD_some]
          rw [pyOr_num_zero]
          have hm : pyMul (Json.num q) (.num 100) = .ok (q * 100) := rfl
          rw [hm, except_ok_bind]
          rfl
        | bool b => simp at hshape2
        | str sx => simp at hshape2
        | arr xs => simp at hshape2
        | obj okvs => simp at hshape2
    | null => simp at hshape
    | bool b => simp at hshape
    | num q => simp at hshape
    | str sx => simp at hshape
    | arr xs => simp at hshape

/-- C9 (witness): a performance score of 0.93 yields the integer 93. -/
theorem C9_witness :
    catScore
      (.obj [("performance", Json.obj [("score", Json.num (mkRat 93 100))])])
      "performance" =
    .ok (.num ((lighthouseScoreSpec (some (mkRat 93 100)) : ℤ) : ℚ)) :=
  C9_lighthouse_score _ "performance" (some (mkRat 93 100)) rfl
    (by
      intro q hq
      simp only [Option.mem_def, Option.some.injEq] at hq
      subst hq
      constructor <;> rw [show (mkRat 93 100 : ℚ) = 93 / 100 by norm_num [mkRat, Rat.normalize]] <;> norm_num)

/-- C5 (counterexample).  With credentials missing, `get_audit_status`
raises the `ValueError` from `get_auth_header` to its caller — it does
not return a `{success: false, error}` result — because its only
handler catches `requests.exceptions.RequestException`. -/
theorem C5_counterexample :
    get_audit_status ⟨none, none⟩ (.ok (.obj [])) "task" =
      .error (.valueError "DataForSEO credentials not configured. Set DATAFORSEO_LOGIN and DATAFORSEO_PASSWORD.") := rfl

/-- C5 (amended).  `start_onpage_audit` returns a failure dict on any
failure (its handlers cover every exception); the other fetch
functions return a failure dict on provider request errors but let the
missing-credential `ValueError` escape to the caller. -/
theorem C5_amended (env bad : Creds) (m : String) (net : Except String Json)
    (tid tid' : String)
    (hc : credTruthy env.login = true ∧ credTruthy env.password = true)
    (hb : credTruthy bad.login = false ∨ credTruthy bad.password = false) :
    (∃ e, start_onpage_audit bad net =
      Json.obj [("success", .bool false), ("error", .str e)]) ∧
    start_onpage_audit env (.error m) =
      Json.obj [("success", .bool false), ("error", .str m)] ∧
    get_audit_status env (.error m) tid =
      .ok (Json.obj [("success", .bool false), ("error", .str m)]) ∧
    get_audit_summary env (.error m) =
      .ok (Json.obj [("success", .bool false), ("error", .str m)]) ∧
    get_page_issues env (.error m) =
      .ok (Json.obj [("success", .bool false), ("error", .str m)]) ∧
    get_lighthouse_audit env (.error m) tid' =
      .ok (Json.obj [("success", .bool false), ("error", .str m)]) ∧
    get_audit_status bad net tid =
      .error (.valueError "DataForSEO credentials not configured. Set DATAFORSEO_LOGIN and DATAFORSEO_PASSWORD.") ∧
    get_audit_summary bad net =
      .error (.valueError "DataForSEO credentials not configured. Set DATAFORSEO_LOGIN and DATAFORSEO_PASSWORD.") ∧
    get_page_issues bad net =
      .error (.valueError "DataForSEO credentials not configured. Set DATAFORSEO_LOGIN and DATAFORSEO_PASSWORD.") ∧
    get_lighthouse_audit bad net tid' =
      .error (.valueError "DataForSEO credentials not configured. Set DATAFORSEO_LOGIN and DATAFORSEO_PASSWORD.") := by
  have hok : get_auth_header env =
      .ok ("Basic " ++ env.login.getD "" ++ ":" ++ env.password.getD "") := by
    unfold get_auth_header
    rw [hc.1, hc.2]
    simp
  have hbad : get_auth_header bad =
      .error (.valueError "DataForSEO credentials not configured. Set DATAFORSEO_LOGIN and DATAFORSEO_PASSWORD.") := by
    unfold get_auth_header
    rcases hb with h | h <;> rw [h] <;> simp
  refine ⟨⟨"Unexpected error: DataForSEO credentials not configured. Set DATAFORSEO_LOGIN and DATAFORSEO_PASSWORD.", ?_⟩,
    ?_, ?_, ?_, ?_, ?_, ?_, ?_, ?_, ?_⟩
  · unfold start_onpage_audit
    rw [hbad]
    rfl
  · unfold start_onpage_audit
    rw [hok]
    rfl
  · unfold get_audit_status
    rw [hok]
    rfl
  · unfold get_audit_summary
    rw [hok]
    rfl
  · unfold get_page_issues
    rw [hok]
    rfl
  · unfold get_lighthouse_audit
    rw [hok]
    rfl
  · unfold get_audit_status
    rw [hbad]
    rfl
  · unfold get_audit_summary
    rw [hbad]
    rfl
  · unfold get_page_issues
    rw [hbad]
    rfl
  · unfold get_lighthouse_audit
    rw [hbad]
    rfl

/-- C5 (witness): concrete environments exercising every branch of the
amended statement. -/
theorem C5_witness :
    (∃ e, start_onpage_audit ⟨none, none⟩ (.ok (.obj [])) =
      Json.obj [("success", .bool false), ("error", .str e)]) ∧
    start_onpage_audit ⟨some "user", some "pass"⟩ (.error "connection refused") =
      Json.obj [("success", .bool false), ("error", .str "connection refused")] ∧
    get_audit_status ⟨some "user", some "pass"⟩ (.error "connection refused") "t" =
      .ok (Json.obj [("success", .bool false), ("error", .str "connection refused")]) ∧
    get_audit_summary ⟨some "user", some "pass"⟩ (.error "connection refused") =
      .ok (Json.obj [("success", .bool false), ("error", .str "connection refused")]) ∧
    get_page_issues ⟨some "user", some "pass"⟩ (.error "connection refused") =
      .ok (Json.obj [("success", .bool false), ("error", .str "connection refused")]) ∧
    get_lighthouse_audit ⟨some "user", some "pass"⟩ (.error "connection refused") "u" =
      .ok (Json.obj [("success", .bool false), ("error", .str "connection refused")]) ∧
    get_audit_status ⟨none, none⟩ (.ok (.obj [])) "t" =
      .error (.valueError "DataForSEO credentials not configured. Set DATAFORSEO_LOGIN and DATAFORSEO_PASSWORD.") ∧
    get_audit_summary ⟨none, none⟩ (.ok (.obj [])) =
      .error (.valueError "DataForSEO credentials not configured. Set DATAFORSEO_LOGIN and DATAFORSEO_PASSWORD.") ∧
    get_page_issues ⟨none, none⟩ (.ok (.obj [])) =
      .error (.valueError "DataForSEO credentials not configured. Set DATAFORSEO_LOGIN and DATAFORSEO_PASSWORD.") ∧
    get_lighthouse_audit ⟨none, none⟩ (.ok (.obj [])) "u" =
      .error (.valueError "DataForSEO credentials not configured. Set DATAFORSEO_LOGIN and DATAFORSEO_PASSWORD.") :=
  C5_amended ⟨some "user", some "pass"⟩ ⟨none, none⟩ "connection refused"
    (.ok (.obj [])) "t" "u" ⟨by decide, by decide⟩ (Or.inl (by decide))

/-- Helper: a successful association-list lookup hits a member. -/
theorem lookup_mem {β : Type} (kvs : List (String × β)) (k : String) (v : β)
    (h : kvs.lookup k = some v) : (k, v) ∈ kvs := by
  induction kvs with
  | nil => exact absurd h (by simp)
  | cons a rest ih =>
    obtain ⟨k', v'⟩ := a
    by_cases hk : k = k'
    · subst hk
      simp [List.lookup] at h
      subst h
      exact List.mem_cons_self _ _
    · rw [List.lookup] at h
      rw [show (k == k') = false by simpa using hk] at h
      exact List.mem_cons_of_mem _ (ih h)

/-- Helper: `.get(k, bool-default)` on an all-boolean dict is boolean. -/
theorem lookup_getD_bool (kvs : List (String × Json)) (k : String) (d : Bool)
    (hc : ∀ kv ∈ kvs, isBoolJ kv.2 = true) :
    isBoolJ ((kvs.lookup k).getD (.bool d)) = true := by
  rcases hl : kvs.lookup k with _ | v
  · rfl
  · simpa using hc (k, v) (lookup_mem kvs k v hl)

/-- C2 (counterexample).  A provider page whose `checks` flag
`no_title` is present but null produces a page record whose
`issues.no_title` is null, not a boolean. -/
theorem C2_counterexample :
    ((formatPage (Json.obj [("checks",
        Json.obj [("no_title", Json.null)])])).toOption.bind
      (fun fp => jLookup fp "issues")).bind
      (fun i => jLookup i "no_title") = some Json.null := rfl

/-- C2 (amended).  Every value of the derived `issues` map is a boolean
provided every flag present in the provider `checks` object is boolean
and the page's `duplicate_description` / `duplicate_content` fields are
absent or boolean; a flag present with a null (or other non-boolean)
value is passed through by `.get` unchanged.  (`formatPage` feeds this
construction the page's `checks` object, or `{}` when it is falsy.) -/
theorem C2_amended (page_kvs checks_kvs : List (String × Json))
    (d1 d2 d3 d4 d5 d6 d7 d8 : Bool) (lt wc : Json) (ltq wcq : ℚ)
    (hc : ∀ kv ∈ checks_kvs, isBoolJ kv.2 = true)
    (hdd : ∀ v, page_kvs.lookup "duplicate_description" = some v →
      isBoolJ v = true)
    (hdc : ∀ v, page_kvs.lookup "duplicate_content" = some v →
      isBoolJ v = true)
    (hlt : asNum lt = some ltq) (hwc : asNum wc = some wcq) :
    ∃ ivs, computeIssues (.obj page_kvs) (.obj checks_kvs)
        d1 d2 d3 d4 d5 d6 d7 d8 lt wc = .ok (.obj ivs) ∧
      ∀ kv ∈ ivs, isBoolJ kv.2 = true := by
  have hdd' : isBoolJ ((page_kvs.lookup "duplicate_description").getD
      (.bool false)) = true := by
    rcases hl : page_kvs.lookup "duplicate_description" with _ | v
    · rfl
    · simpa using hdd v hl
  have hdc' : isBoolJ ((page_kvs.lookup "duplicate_content").getD
      (.bool false)) = true := by
    rcases hl : page_kvs.lookup "duplicate_content" with _ | v
    · rfl
    · simpa using hdc v hl
  unfold computeIssues
  simp only [pyGet_obj, except_ok_bind]
  rw [show pyGtC lt 3000 = .ok (decide (3000 < ltq)) from by
    simp [pyGtC, hlt]]
  rw [show pyLtC wc 300 = .ok (decide (wcq < 300)) from by
    simp [pyLtC, hwc]]
  simp only [except_ok_bind, pure, Except.pure]
  refine ⟨_, rfl, ?_⟩
  intro kv hkv
  simp only [List.mem_cons, List.not_mem_nil, or_false] at hkv
  rcases hkv with h|h|h|h|h|h|h|h|h|h|h|h|h|h|h|h|h|h|h|h|h|h|h|h|h|h|h|h|h|h|h|h|h|h|h|h <;>
    rw [h] <;>
    first
      | rfl
      | exact lookup_getD_bool _ _ _ hc
      | exact hdd'
      | exact hdc'

/-- C2 (witness): a concrete all-boolean checks object yields an
all-boolean issues map. -/
theorem C2_witness :
    ∃ ivs, computeIssues (.obj [("duplicate_description", .bool true)])
        (.obj [("no_title", .bool true)])
        false false false false false false false false
        (.num 0) (.num 0) = .ok (.obj ivs) ∧
      ∀ kv ∈ ivs, isBoolJ kv.2 = true :=
  C2_amended [("duplicate_description", .bool true)]
    [("no_title", .bool true)] false false false false false false false
    false (.num 0) (.num 0) 0 0 (by decide)
    (by intro v hv; simp at hv; subst hv; rfl)
    (by
      intro v hv
      rw [show List.lookup "duplicate_content"
        [("duplicate_description", Json.bool true)] = none from rfl] at hv
      exact Option.noConfusion hv)
    rfl rfl

/-- Helper: lookup after a `tag_map` bump. -/
theorem bumpKey_lookup (m : List (String × ℕ)) (k k' : String) :
    (bumpKey m k).lookup k' =
      if k' = k then some ((m.lookup k').getD 0 + 1) else m.lookup k' := by
  induction m with
  | nil =>
    by_cases h : k' = k
    · subst h
      simp [bumpKey, List.lookup]
    · simp [bumpKey, List.lookup,
        show (k' == k) = false from by simpa using h, h]
  | cons a rest ih =>
    obtain ⟨ka, va⟩ := a
    by_cases hak : ka = k
    · subst hak
      by_cases h : k' = ka
      · subst h
        simp [bumpKey, List.lookup]
      · simp [bumpKey, List.lookup,
          show (k' == ka) = false from by simpa using h, h]
    · by_cases h : k' = ka
      · subst h
        have hk : ¬ k' = k := fun e => hak e
        simp [bumpKey, hak, List.lookup, hk]
      · simp only [bumpKey, if_neg hak, List.lookup,
          show (k' == ka) = false from by simpa using h]
        exact ih

/-- Helper: the key list after a bump. -/
theorem bumpKey_fst (m : List (String × ℕ)) (k : String) :
    (bumpKey m k).map Prod.fst =
      if k ∈ m.map Prod.fst then m.map Prod.fst
      else m.map Prod.fst ++ [k] := by
  induction m with
  | nil => simp [bumpKey]
  | cons a rest ih =>
    obtain ⟨ka, va⟩ := a
    by_cases hak : ka = k
    · subst hak
      simp [bumpKey]
    · have hka : ¬ k = ka := fun e => hak e.symm
      by_cases hk : k ∈ rest.map Prod.fst <;>
        simp [bumpKey, hak, ih, hk, hka]

/-- Helper: bumping preserves distinctness of keys. -/
theorem bumpKey_nodup (m : List (String × ℕ)) (k : String)
    (h : (m.map Prod.fst).Nodup) : ((bumpKey m k).map Prod.fst).Nodup := by
  rw [bumpKey_fst]
  by_cases hk : k ∈ m.map Prod.fst
  · simpa [hk] using h
  · rw [if_neg hk]
    refine h.append (List.nodup_singleton k) ?_
    intro x hx hx'
    simp only [List.mem_singleton] at hx'
    subst hx'
    exact hk hx

/-- Helper: on key-distinct association lists, membership determines
the lookup. -/
theorem lookup_of_mem_nodup {β : Type} (l : List (String × β))
    (hnd : (l.map Prod.fst).Nodup) (k : String) (v : β)
    (hm : (k, v) ∈ l) : l.lookup k = some v := by
  induction l with
  | nil => simp at hm
  | cons a rest ih =>
    obtain ⟨ka, va⟩ := a
    rw [List.map_cons] at hnd
    have h1 : ka ∉ rest.map Prod.fst := (List.nodup_cons.mp hnd).1
    have h2 : (rest.map Prod.fst).Nodup := (List.nodup_cons.mp hnd).2
    rcases List.mem_cons.mp hm with h | h
    · rw [Prod.mk.injEq] at h
      obtain ⟨rfl, rfl⟩ := h
      simp [List.lookup]
    · have hk : k ≠ ka := by
        rintro rfl
        exact h1 (List.mem_map_of_mem Prod.fst h)
      rw [List.lookup, show (k == ka) = false from by simpa using hk]
      exact ih h2 h

/-- Helper: the invariant of the `tag_map` fold — after processing
`seen ++ ks`, the map has distinct keys and stores exactly the
occurrence counts of the processed keys. -/
theorem foldl_bumpKey_spec (ks : List String) :
    ∀ (seen : List String) (m : List (String × ℕ)),
    (m.map Prod.fst).Nodup →
    (∀ k, m.lookup k = if k ∈ seen then some (seen.count k) else none) →
    ((ks.foldl bumpKey m).map Prod.fst).Nodup ∧
    ∀ k, (ks.foldl bumpKey m).lookup k =
      if k ∈ seen ++ ks then some ((seen ++ ks).count k) else none := by
  induction ks with
  | nil =>
    intro seen m hnd hlk
    simpa using ⟨hnd, hlk⟩
  | cons a ks ih =>
    intro seen m hnd hlk
    have hlk' : ∀ k, (bumpKey m a).lookup k =
        if k ∈ seen ++ [a] then some ((seen ++ [a]).count k) else none := by
      intro k
      rw [bumpKey_lookup]
      by_cases hk : k = a
      · subst hk
        rw [hlk]
        by_cases hks : k ∈ seen
        · simp [hks, List.count_append]
        · simp [hks, List.count_append, List.count_eq_zero.mpr hks]
      · rw [hlk]
        by_cases hks : k ∈ seen <;>
          simp [hks, hk, List.count_append]
    have h1 := ih (seen ++ [a]) (bumpKey m a) (bumpKey_nodup m a hnd) hlk'
    rw [List.foldl_cons]
    rw [show seen ++ a :: ks = (seen ++ [a]) ++ ks by simp]
    exact h1

/-- The duplicate count of the fallback `tag_map` equals the number of
distinct keys occurring more than once in the processed key stream. -/
theorem dupCount_eq (ks : List String) :
    dupCount ks = (ks.toFinset.filter fun k => 1 < ks.count k).card := by
  obtain ⟨hnd0, hlk0⟩ := foldl_bumpKey_spec ks [] []
    (by simp) (by intro k; simp [List.lookup])
  have hnd : ((buildCounts ks).map Prod.fst).Nodup := by
    simpa using hnd0
  have hlk : ∀ k, (buildCounts ks).lookup k =
      if k ∈ ks then some (ks.count k) else none := by
    intro k
    simpa using hlk0 k
  have hentry : ∀ kv ∈ buildCounts ks, kv.2 = ks.count kv.1 ∧ kv.1 ∈ ks := by
    intro kv hm
    have hl := lookup_of_mem_nodup _ hnd kv.1 kv.2 hm
    rw [hlk kv.1] at hl
    by_cases hks : kv.1 ∈ ks
    · rw [if_pos hks] at hl
      exact ⟨(Option.some.injEq _ _ |>.mp hl).symm, hks⟩
    · rw [if_neg hks] at hl
      exact absurd hl (by simp)
  have hmem : ∀ k, k ∈ (buildCounts ks).map Prod.fst ↔ k ∈ ks := by
    intro k
    constructor
    · intro h
      obtain ⟨kv, hkv, rfl⟩ := List.mem_map.mp h
      exact (hentry kv hkv).2
    · intro h
      have hl : (buildCounts ks).lookup k = some (ks.count k) := by
        rw [hlk]
        simp [h]
      exact List.mem_map_of_mem Prod.fst (lookup_mem _ _ _ hl)
  unfold dupCount
  rw [List.countP_congr (fun kv hm => by rw [(hentry kv hm).1] :
    ∀ kv ∈ buildCounts ks, (decide (1 < kv.2) = true ↔
      decide (1 < ks.count kv.1) = true))]
  rw [show (buildCounts ks).countP (fun kv => decide (1 < ks.count kv.1)) =
      ((buildCounts ks).map Prod.fst).countP
        (fun k => decide (1 < ks.count k)) by
    rw [List.countP_map]
    rfl]
  rw [List.countP_eq_length_filter]
  have hfn := hnd.filter (fun k => decide (1 < ks.count k))
  rw [← List.toFinset_card_of_nodup hfn]
  congr 1
  rw [List.toFinset_filter]
  have hts : ((buildCounts ks).map Prod.fst).toFinset = ks.toFinset := by
    ext x
    simp only [List.mem_toFinset]
    exact hmem x
  rw [hts]
  apply Finset.filter_congr
  intro x _
  simp

/-- C4 (counterexample).  One single page whose h1 list repeats
"Hello there" twice: the fallback reports one duplicate H1, although
the text appears on only one page — the spec-side reading (one
duplicate per normalized text appearing on more than one page URL)
reports zero. -/
theorem C4_counterexample :
    (headingFallbackCounts (Json.arr [Json.obj
        [("url", .str "https://a.com/"),
         ("h1", Json.arr [.str "Hello there", .str "Hello there"])]])).map
      (·.dup_h1_count) = .ok 1 ∧
    specDupH1 [Json.obj
      [("url", .str "https://a.com/"),
       ("h1", Json.arr [.str "Hello there", .str "Hello there"])]] = 0 :=
  ⟨rfl, by decide⟩

/-- C4 (amended).  In the duplicate-heading fallback, a heading text is
normalized by lower-casing and trimming, ignored when its normalized
length is at most 3, and counted as one duplicate when its total
number of occurrences across the page list (repeats within a single
page included) exceeds one; for a page list where "Welcome" appears
under h1 on 3 distinct URLs, the duplicate-H1 count equals 1, not 3. -/
theorem C4_amended (pages : Json) (ps : List Json) (phs : List PageHeadings)
    (hps : pyIter pages = .ok ps)
    (hphs : ps.mapM pageHeadings = .ok phs) :
    (headingFallbackCounts pages).map (·.dup_h1_count) =
      .ok (((phs.flatMap (·.h1_keys)).toFinset.filter
        (fun k => 1 < (phs.flatMap (·.h1_keys)).count k)).card) ∧
    (headingFallbackCounts (Json.arr
      [Json.obj [("url", .str "https://a.com/"),
                 ("h1", Json.arr [.str "Welcome"])],
       Json.obj [("url", .str "https://b.com/"),
                 ("h1", Json.arr [.str "Welcome"])],
       Json.obj [("url", .str "https://c.com/"),
                 ("h1", Json.arr [.str "Welcome"])]])).map
      (·.dup_h1_count) = .ok 1 := by
  constructor
  · rw [← dupCount_eq]
    unfold headingFallbackCounts
    rw [hps, except_ok_bind, hphs, except_ok_bind]
    rfl
  · rfl

/-- C4 (witness): the three-page "Welcome" list instantiating the
amended statement. -/
theorem C4_witness :
    (headingFallbackCounts (Json.arr
      [Json.obj [("url", .str "https://a.com/"),
                 ("h1", Json.arr [.str "Welcome"])],
       Json.obj [("url", .str "https://b.com/"),
                 ("h1", Json.arr [.str "Welcome"])],
       Json.obj [("url", .str "https://c.com/"),
                 ("h1", Json.arr [.str "Welcome"])]])).map
      (·.dup_h1_count) =
      .ok ((((List.replicate 3
          (⟨false, false, true, false, true, false,
            ["welcome"], [], []⟩ : PageHeadings)).flatMap
            (·.h1_keys)).toFinset.filter
        (fun k => 1 < ((List.replicate 3
          (⟨false, false, true, false, true, false,
            ["welcome"], [], []⟩ : PageHeadings)).flatMap
            (·.h1_keys)).count k)).card) ∧
    (headingFallbackCounts (Json.arr
      [Json.obj [("url", .str "https://a.com/"),
                 ("h1", Json.arr [.str "Welcome"])],
       Json.obj [("url", .str "https://b.com/"),
                 ("h1", Json.arr [.str "Welcome"])],
       Json.obj [("url", .str "https://c.com/"),
                 ("h1", Json.arr [.str "Welcome"])]])).map
      (·.dup_h1_count) = .ok 1 :=
  C4_amended _ _ (List.replicate 3
      (⟨false, false, true, false, true, false, ["welcome"], [], []⟩ :
        PageHeadings)) rfl rfl

/-- Helper: with no screenshots supplied (null or empty dict), the deck
computation is exactly the prelude followed by the four fallback data
slides — every screenshot gate closes and the emitted unit list is the
fixed 12-unit sequence. -/
theorem deck_noshots_eq (data s annots issue_counts : Json)
    (hs : s = Json.null ∨ s = Json.obj []) :
    create_deep_audit_slides data s annots issue_counts =
      (deckPrelude data >>= fun d =>
        create_slide_traffic_dashboard_data d.rank_overview d.backlinks
            d.keywords >>= fun _ =>
        pySlice d.keywords 7 >>= fun sliced =>
        create_slide_kw_table_data sliced >>= fun _ =>
        bad_meta_calc d.pages >>= fun bad_meta =>
        create_slide_issue_table_data bad_meta >>= fun _ =>
        avg_load_time_calc d.pages >>= fun _ =>
        Except.ok unitsNoScreenshots) := by
  rcases hs with rfl | rfl <;> rfl

/-- C1 (counterexample).  On an empty audit payload with no screenshots
the deck assembler emits exactly 12 slide units, not the 16 the spec
states. -/
theorem C1_counterexample :
    (create_deep_audit_slides (Json.obj []) Json.null Json.null
        Json.null).map List.length = .ok 12 ∧ (12 : ℕ) ≠ 16 :=
  ⟨rfl, by decide⟩

/-- C1 (amended).  For every audit-data input with no screenshots
supplied (screenshots null or empty), whenever `create_deep_audit_slides`
succeeds it emits exactly 12 slide units in the fixed order — cover,
explainer+traffic dashboard, keyword table, explainer+meta issue table,
heading/backlink/content/speed explainers, speed fallback, thank-you —
because FOUR optional units are image-gated (homepage snapshot, heading
issues, backlinks, content readability), not two. -/
theorem C1_amended (data screenshots annots issue_counts : Json)
    (units : List SlideUnit)
    (hs : screenshots = Json.null ∨ screenshots = Json.obj [])
    (hrun : create_deep_audit_slides data screenshots annots issue_counts =
      .ok units) :
    units = unitsNoScreenshots ∧ units.length = 12 := by
  rw [deck_noshots_eq data screenshots annots issue_counts hs] at hrun
  rcases hd : deckPrelude data with e | d
  · rw [hd, except_error_bind] at hrun
    exact Except.noConfusion hrun
  rw [hd, except_ok_bind] at hrun
  rcases h1 : create_slide_traffic_dashboard_data d.rank_overview
      d.backlinks d.keywords with e | v1
  · rw [h1, except_error_bind] at hrun
    exact Except.noConfusion hrun
  rw [h1, except_ok_bind] at hrun
  rcases h2 : pySlice d.keywords 7 with e | v2
  · rw [h2, except_error_bind] at hrun
    exact Except.noConfusion hrun
  rw [h2, except_ok_bind] at hrun
  rcases h3 : create_slide_kw_table_data v2 with e | v3
  · rw [h3, except_error_bind] at hrun
    exact Except.noConfusion hrun
  rw [h3, except_ok_bind] at hrun
  rcases h4 : bad_meta_calc d.pages with e | v4
  · rw [h4, except_error_bind] at hrun
    exact Except.noConfusion hrun
  rw [h4, except_ok_bind] at hrun
  rcases h5 : create_slide_issue_table_data v4 with e | v5
  · rw [h5, except_error_bind] at hrun
    exact Except.noConfusion hrun
  rw [h5, except_ok_bind] at hrun
  rcases h6 : avg_load_time_calc d.pages with e | v6
  · rw [h6, except_error_bind] at hrun
    exact Except.noConfusion hrun
  rw [h6, except_ok_bind] at hrun
  have hu : units = unitsNoScreenshots := by
    injection hrun with h
    rw [← h]
  exact ⟨hu, by rw [hu]; rfl⟩

/-- C1 (witness): the amended theorem instantiated on the empty audit
payload with null screenshots. -/
theorem C1_witness :
    unitsNoScreenshots = unitsNoScreenshots ∧
    unitsNoScreenshots.length = 12 :=
  C1_amended (Json.obj []) Json.null Json.null Json.null unitsNoScreenshots
    (Or.inl rfl) rfl
